import Mathlib

/-!
# STM32L4x5 flash controller (hw/block/stm32l4x5_flash.c)

A shallow embedding of the flash controller device model and theorems about
its register interface and program path.

Conventions of the embedding.

* C `uint32_t` / `uint64_t` values are natural numbers; a truncation that the C
  performs (`uint32_t val = value`, `prev_write_addr + 1`, ...) is an explicit
  `% 2 ^ 32`.  Bitwise complement of a 32-bit operand is `not32`.
* `content[bank][i]` is a function `Nat → Nat → Nat` (bank, word index); the
  backing drive `blk` is a function from byte offset to byte value.
* `blk_pwrite` belongs to the block layer, which is outside this device.  Its
  outcome is an input of the operation (`wr_ok`): a successful call stores the
  buffer, a failing call leaves the drive as it was.  The host is little-endian,
  so byte `j` of a word `w` in memory is `(w >>> (8 * j)) % 256`.
* The device mutates `*s`; the embedding passes the state in and returns the
  new state.
* The memory core, which is outside this device, calls the `write_with_attrs`
  callback of a region with the offset inside that region.  Each bank is a
  region of `BANK_SIZE` bytes of its own, so `flash_store` hands
  `stm32l4x5_flash_write` the offset reduced modulo `BANK_SIZE`.
-/

namespace Stm32l4x5Flash

/-! ## include/hw/block/stm32l4x5_flash.h -/

def FLASH_ACR : Nat := 0x0
def FLASH_KEYR : Nat := 0x8
def FLASH_SR : Nat := 0x10
def FLASH_CR : Nat := 0x14

def FLASH_SR_EOP : Nat := 1 <<< 0
def FLASH_SR_PROGERR : Nat := 1 <<< 3
def FLASH_SR_BSY : Nat := 1 <<< 16

def FLASH_CR_PG : Nat := 1 <<< 0
def FLASH_CR_PER : Nat := 1 <<< 1
def FLASH_CR_MER1 : Nat := 1 <<< 2
def FLASH_CR_BKER : Nat := 1 <<< 11
def FLASH_CR_MER2 : Nat := 1 <<< 15
def FLASH_CR_STRT : Nat := 1 <<< 16
def FLASH_CR_LOCK : Nat := 1 <<< 31

def NUM_BANKS : Nat := 2
def PAGE_SIZE : Nat := 2048
def NUM_PAGES_BANK : Nat := 256
def BANK_SIZE : Nat := NUM_PAGES_BANK * PAGE_SIZE

/-- The first unlock key compared against in the `FLASH_KEYR` case. -/
def KEY1 : Nat := 0x45670123

/-- The second unlock key compared against in the `FLASH_KEYR` case. -/
def KEY2 : Nat := 0xCDEF89AB

/-- Bitwise complement `~x` of a 32-bit operand. -/
def not32 (x : Nat) : Nat := (2 ^ 32 - 1) ^^^ (x % 2 ^ 32)

/-- The fields of `struct STM32L4X5FlashState` that carry device state.  The
`MemoryRegion` members are wiring and are left out; `blk` stands for the
content of the drive behind the `BlockBackend`. -/
structure STM32L4X5FlashState where
  blk : Nat → Nat
  content : Nat → Nat → Nat
  flash_cr : Nat
  flash_sr : Nat
  prev_write_addr : Nat
  unlock_stage : Nat
  swapped_banks : Bool

/-- Result code of a memory transaction; the program path only ever returns
`MEMTX_OK`. -/
inductive MemTxResult where
  | MEMTX_OK
  | MEMTX_ERROR
  deriving DecidableEq

/-- The call `memset(&c[first], 0xFF, 4 * count)` on an array of 32-bit words. -/
def memset_words (c : Nat → Nat) (first count : Nat) : Nat → Nat :=
  fun i => if first ≤ i ∧ i < first + count then 0xFFFFFFFF else c i

/-- Byte `j` of the memory starting at `&c[first]`, for an array of 32-bit
words on a little-endian host. -/
def buf_byte (c : Nat → Nat) (first j : Nat) : Nat :=
  (c (first + j / 4) >>> (8 * (j % 4))) % 256

/-- The call `blk_pwrite(blk, offset, bytes, buf, 0)`: when the write succeeds
the drive holds `buf` at `[offset, offset + bytes)`; when it fails (`wr_ok` is
false) the drive is unchanged.  The device only logs the failure. -/
def blk_pwrite (wr_ok : Bool) (blk : Nat → Nat) (offset bytes : Nat) (buf : Nat → Nat) :
    Nat → Nat :=
  if wr_ok then fun k => if offset ≤ k ∧ k < offset + bytes then buf (k - offset) else blk k
  else blk

/-- The function `stm32l4x5_flash_system_reset`. -/
def stm32l4x5_flash_system_reset (s : STM32L4X5FlashState) : STM32L4X5FlashState :=
  { s with unlock_stage := 0, flash_sr := 0, flash_cr := 0xC0000000, prev_write_addr := 0 }

/-- The function `stm32l4x5_flash_mmio_read`; it does not modify the state. -/
def stm32l4x5_flash_mmio_read (s : STM32L4X5FlashState) (addr : Nat) : Nat :=
  if addr = FLASH_SR then s.flash_sr
  else if addr = FLASH_CR then s.flash_cr
  else 0

/-- The `FLASH_CR_PER` block of `stm32l4x5_flash_mmio_write`: `memset` of one
page (`PAGE_SIZE` bytes, that is `PAGE_SIZE / 4` words from word `page << 9`)
of `content[bank]`, then `blk_pwrite` of `PAGE_SIZE` bytes read from
`&content[bank][page << 8]` to drive offset `(page << bank) << 10`. -/
def page_erase (s : STM32L4X5FlashState) (wr_ok : Bool) (value : Nat) : STM32L4X5FlashState :=
  let val := value % 2 ^ 32
  let page := (val >>> 3) &&& 0xFF
  let bank := if value &&& FLASH_CR_BKER > 0 then 1 else 0
  let erased : Nat → Nat → Nat := fun b i =>
    if b = bank then memset_words (s.content bank) (page <<< 9) (PAGE_SIZE / 4) i
    else s.content b i
  { s with
    content := erased
    blk := blk_pwrite wr_ok s.blk ((page <<< bank) <<< 10) PAGE_SIZE
      (buf_byte (erased bank) (page <<< 8)) }

/-- The `case FLASH_SR:` block of `stm32l4x5_flash_mmio_write`. -/
def write_FLASH_SR (s : STM32L4X5FlashState) (val : Nat) : STM32L4X5FlashState :=
  let s1 := { s with flash_sr := s.flash_sr &&& not32 val }
  if val &&& FLASH_SR_BSY ≠ 0 then
    { s1 with flash_cr := s1.flash_cr &&& not32 FLASH_CR_STRT }
  else
    s1

/-- The `case FLASH_CR:` block of `stm32l4x5_flash_mmio_write`.

The result is `none` where the C has no defined behaviour: in the `MER1` and
`MER2` blocks the call is `memset(&s->content[b], 0xFF, BANK_SIZE)`, and
`s->content` is the array of two bank pointers inside the device structure, so
the `BANK_SIZE` bytes written start at the pointer slot itself (the page erase
above it passes `&s->content[bank][...]`, an address inside the bank). -/
def write_FLASH_CR (s : STM32L4X5FlashState) (wr_ok : Bool) (value : Nat) :
    Option STM32L4X5FlashState :=
  let val := value % 2 ^ 32
  if val &&& FLASH_CR_LOCK ≠ 0 then
    some { s with flash_cr := s.flash_cr ||| FLASH_CR_LOCK, unlock_stage := 0 }
  else
    let s1 := { s with flash_cr := val &&& not32 FLASH_CR_LOCK }
    if val &&& FLASH_CR_STRT ≠ 0 then
      if s1.flash_cr &&& FLASH_CR_LOCK ≠ 0 then
        some { s1 with flash_sr := FLASH_SR_PROGERR }
      else if val &&& FLASH_CR_PG ≠ 0 then
        some { s1 with flash_sr := s1.flash_sr ||| FLASH_SR_BSY }
      else
        let s2 := if val &&& FLASH_CR_PER ≠ 0 then page_erase s1 wr_ok value else s1
        if val &&& FLASH_CR_MER1 ≠ 0 then none
        else if val &&& FLASH_CR_MER2 ≠ 0 then none
        else some { s2 with flash_sr := s2.flash_sr ||| FLASH_SR_EOP }
    else
      some s1

/-- The `case FLASH_KEYR:` block of `stm32l4x5_flash_mmio_write`. -/
def write_FLASH_KEYR (s : STM32L4X5FlashState) (val : Nat) : STM32L4X5FlashState :=
  if s.unlock_stage = 0 ∧ val = KEY1 then
    { s with unlock_stage := 1 }
  else if s.unlock_stage = 1 ∧ val = KEY2 then
    { s with unlock_stage := 0, flash_cr := s.flash_cr &&& not32 FLASH_CR_LOCK }
  else
    { s with unlock_stage := 0 }

/-- The function `stm32l4x5_flash_mmio_write`: `uint32_t val = value`, then the
`switch (addr)`; the `default:` case only logs. -/
def stm32l4x5_flash_mmio_write (s : STM32L4X5FlashState) (wr_ok : Bool) (addr value : Nat) :
    Option STM32L4X5FlashState :=
  let val := value % 2 ^ 32
  if addr = FLASH_SR then some (write_FLASH_SR s val)
  else if addr = FLASH_CR then write_FLASH_CR s wr_ok value
  else if addr = FLASH_KEYR then some (write_FLASH_KEYR s val)
  else some s

/-- The local `effective_addr` of `stm32l4x5_flash_write` after the bank bit
has been split off: `addr >> 2` as a `uint32_t`, masked with `0x1FFFF` when
bit 17 is set. -/
def effective_addr (addr : Nat) : Nat :=
  let ea := (addr >>> 2) % 2 ^ 32
  if ea &&& 0x20000 ≠ 0 then ea &&& 0x1FFFF else ea

/-- The local `bank` of `stm32l4x5_flash_write`: bit 17 of `addr >> 2`,
negated when `swapped_banks` is set. -/
def write_bank (swapped_banks : Bool) (addr : Nat) : Nat :=
  let ea := (addr >>> 2) % 2 ^ 32
  let bank := if ea &&& 0x20000 ≠ 0 then 1 else 0
  if swapped_banks then (if bank = 0 then 1 else 0) else bank

/-- The condition of the rejecting `if` of `stm32l4x5_flash_write`. -/
def write_rejected (s : STM32L4X5FlashState) (addr : Nat) : Bool :=
  decide (s.flash_cr &&& FLASH_CR_LOCK ≠ 0
    ∨ addr &&& 0b11 ≠ 0
    ∨ s.flash_cr &&& FLASH_CR_PG = 0
    ∨ (s.prev_write_addr > 0 ∧ (s.prev_write_addr + 1) % 2 ^ 32 ≠ effective_addr addr)
    ∨ (s.content (write_bank s.swapped_banks addr) (effective_addr addr) ≠ 0x00
        ∧ s.content (write_bank s.swapped_banks addr) (effective_addr addr) ≠ 0xFFFFFFFF))

/-- The function `stm32l4x5_flash_write`, the write handler of the two bank
regions. -/
def stm32l4x5_flash_write (s : STM32L4X5FlashState) (wr_ok : Bool) (addr value : Nat) :
    MemTxResult × STM32L4X5FlashState :=
  let val := value % 2 ^ 32
  let bank := write_bank s.swapped_banks addr
  if write_rejected s addr then
    (MemTxResult.MEMTX_OK,
      { s with flash_sr := (s.flash_sr &&& not32 FLASH_SR_BSY) ||| FLASH_SR_PROGERR })
  else
    let s1 : STM32L4X5FlashState :=
      if s.prev_write_addr = 0 ∧ effective_addr addr ≠ 1 then
        { s with prev_write_addr := effective_addr addr }
      else
        { s with
          prev_write_addr := 0
          flash_sr := (s.flash_sr &&& not32 FLASH_SR_BSY) ||| FLASH_SR_EOP }
    let drive_word := if bank ≠ 0 then effective_addr addr ||| 0x20000 else effective_addr addr
    (MemTxResult.MEMTX_OK,
      { s1 with
        content := fun b i =>
          if b = bank ∧ i = effective_addr addr then val else s1.content b i
        blk := blk_pwrite wr_ok s1.blk ((drive_word <<< 2) % 2 ^ 32) 4
          (fun j => (val >>> (8 * j)) % 256) })

/-! ## Attach (`stm32l4x5_flash_realize`) and the flash address space -/

/-- What `stm32l4x5_flash_realize` asks of the drive behind `s->blk`: its bytes,
its length, the answer of `blk_supports_write_perm`, and whether `blk_set_perm`
returns without an error.  The block layer itself is outside this device. -/
structure BlockBackend where
  data : Nat → Nat
  length : Nat
  supports_write_perm : Bool
  set_perm_ok : Bool

/-- Outcome of `blk_pread(blk, offset, bytes, buf, 0)`: the read succeeds exactly
when `[offset, offset + bytes)` lies inside the drive. -/
def blk_pread (d : BlockBackend) (offset bytes : Nat) : Bool :=
  decide (offset + bytes ≤ d.length)

/-- The 32-bit word that four drive bytes at offset `o` form in the memory of a
little-endian host. -/
def word_at (data : Nat → Nat) (o : Nat) : Nat :=
  data o % 256 + 2 ^ 8 * (data (o + 1) % 256) + 2 ^ 16 * (data (o + 2) % 256)
    + 2 ^ 24 * (data (o + 3) % 256)

/-- The byte swap `__bswap_32` of a 32-bit word. -/
def bswap_32 (x : Nat) : Nat :=
  ((x &&& 0xFF000000) >>> 24) ||| ((x &&& 0x00FF0000) >>> 8)
    ||| ((x &&& 0x0000FF00) <<< 8) ||| ((x &&& 0x000000FF) <<< 24)

/-- The ways `stm32l4x5_flash_realize` returns with `errp` set. -/
inductive RealizeError where
  | blk_not_set
  | read_only_drive
  | set_perm_failed
  | load_failed
  deriving DecidableEq

/-- The function `stm32l4x5_flash_realize`, on the device state `s` as it is
before attach and the drive given by the `drive` property (`none` when the
property is unset).  Both banks are read in full from the drive; then the first
word of `content[1]`, byte-swapped, is compared with the range starting at
`0x0800000` and `swapped_banks` is set when it lies inside. -/
def stm32l4x5_flash_realize (s : STM32L4X5FlashState) (drive : Option BlockBackend) :
    Except RealizeError STM32L4X5FlashState :=
  match drive with
  | none => Except.error RealizeError.blk_not_set
  | some d =>
    if d.supports_write_perm = false then Except.error RealizeError.read_only_drive
    else if d.set_perm_ok = false then Except.error RealizeError.set_perm_failed
    else if blk_pread d (0 * BANK_SIZE) BANK_SIZE = false then
      Except.error RealizeError.load_failed
    else if blk_pread d (1 * BANK_SIZE) BANK_SIZE = false then
      Except.error RealizeError.load_failed
    else
      let content : Nat → Nat → Nat := fun i k => word_at d.data (i * BANK_SIZE + 4 * k)
      let first_addr := bswap_32 (content 1 0)
      let swapped_banks :=
        if first_addr ≥ 0x0800000 ∧ first_addr < 0x0800000 + BANK_SIZE then true
        else s.swapped_banks
      Except.ok { s with blk := d.data, content := content, swapped_banks := swapped_banks }

/-- The array `banks` at the end of `stm32l4x5_flash_realize`: slot `i` of the
container, at offset `i * BANK_SIZE`, is the region of bank `banks[i]`. -/
def banks (swapped_banks : Bool) (i : Nat) : Nat :=
  if swapped_banks then (if i = 0 then 1 else 0) else i

/-- A word read at offset `a` of the flash address space (the container): the
banks are ROM-device regions backed by `content`, so the read returns the word
of the bank mapped at slot `a / BANK_SIZE`. -/
def flash_read (s : STM32L4X5FlashState) (a : Nat) : Nat :=
  s.content (banks s.swapped_banks (a / BANK_SIZE)) (a % BANK_SIZE / 4)

/-- A word store at offset `a` of the flash address space (the container).
`stm32l4x5_flash_realize` creates each bank region with
`memory_region_init_rom_device(&s->bank[i], ..., &stm32l4x5_flash_ops, s, name,
BANK_SIZE, ...)` and maps the two regions at `i * BANK_SIZE`.  Both regions
carry the same callbacks and the same `opaque`, and the callback is given the
offset inside the region that was hit: a store in either slot runs
`stm32l4x5_flash_write` with `a % BANK_SIZE`. -/
def flash_store (s : STM32L4X5FlashState) (wr_ok : Bool) (a value : Nat) :
    MemTxResult × STM32L4X5FlashState :=
  stm32l4x5_flash_write s wr_ok (a % BANK_SIZE) value

/-- The drive equals the bank content: byte `k` of bank `b` is the drive byte at
`b * BANK_SIZE + k`, for both banks. -/
def mirrored (s : STM32L4X5FlashState) : Prop :=
  ∀ b k, b < 2 → k < BANK_SIZE → s.blk (b * BANK_SIZE + k) = buf_byte (s.content b) 0 k

/-! ## Computed indices and the callback table -/

/-- The local `page` of the `FLASH_CR_PER` block: bits 10:3 of `val`. -/
def erase_page (value : Nat) : Nat :=
  ((value % 2 ^ 32) >>> 3) &&& 0xFF

/-- The local `bank` of the `FLASH_CR_PER` block: whether `BKER` is set. -/
def erase_bank (value : Nat) : Nat :=
  if value &&& FLASH_CR_BKER > 0 then 1 else 0

/-- The drive offset `effective_addr << 2` that `stm32l4x5_flash_write` passes to
`blk_pwrite`, after `effective_addr |= 0x20000` for bank 1. -/
def write_drive_offset (swapped_banks : Bool) (addr : Nat) : Nat :=
  ((if write_bank swapped_banks addr ≠ 0 then effective_addr addr ||| 0x20000
    else effective_addr addr) <<< 2) % 2 ^ 32

/-- One call into the device through its callbacks: the `read` and `write` of
`stm32l4x5_flash_mmio_ops`, the `write_with_attrs` of `stm32l4x5_flash_ops`,
and the `reset` of the device class. -/
inductive Access where
  | mmio_read (addr : Nat)
  | mmio_write (wr_ok : Bool) (addr value : Nat)
  | flash_write (wr_ok : Bool) (addr value : Nat)
  | system_reset

/-- The device state after one call.  The body of `stm32l4x5_flash_mmio_read`
assigns no member of `*s`, so a read leaves the state as it is. -/
def access (s : STM32L4X5FlashState) : Access → Option STM32L4X5FlashState
  | Access.mmio_read _ => some s
  | Access.mmio_write wr_ok addr value => stm32l4x5_flash_mmio_write s wr_ok addr value
  | Access.flash_write wr_ok addr value => some (stm32l4x5_flash_write s wr_ok addr value).2
  | Access.system_reset => some (stm32l4x5_flash_system_reset s)

/-! ## Sample states -/

/-- A controller fresh out of reset over a fully erased drive. -/
def locked_state : STM32L4X5FlashState :=
  { blk := fun _ => 0xFF
    content := fun _ _ => 0xFFFFFFFF
    flash_cr := 0xC0000000
    flash_sr := 0
    prev_write_addr := 0
    unlock_stage := 0
    swapped_banks := false }

/-- A locked controller whose bank 0 holds `0x12345678` in its first word, the
drive mirroring it. -/
def programmed_locked_state : STM32L4X5FlashState :=
  { locked_state with
    content := fun b i => if b = 0 ∧ i = 0 then 0x12345678 else 0xFFFFFFFF
    blk := fun k =>
      if k = 0 then 0x78 else if k = 1 then 0x56 else if k = 2 then 0x34
      else if k = 3 then 0x12 else 0xFF }

/-- An unlocked controller with `CR.PG` set, nothing programmed yet. -/
def unlocked_pg_state : STM32L4X5FlashState :=
  { locked_state with flash_cr := FLASH_CR_PG }

/-- An unlocked controller with `CR.PG` set that has accepted word 2 of bank 0
as the first word of a pair. -/
def awaiting_pair_state : STM32L4X5FlashState :=
  { unlocked_pg_state with
    prev_write_addr := 2
    flash_sr := FLASH_SR_BSY
    content := fun b i => if b = 0 ∧ i = 2 then 0xDEADBEEF else 0xFFFFFFFF }

/-- An unlocked controller with `CR.PG` set, the swap flag clear and the tracker
at 2, whose bank 1 holds `0xDEADBEEF` in word 2, the first word of a pair, and
whose bank 0 holds `0x12345678` in word 3.  Word 3 of bank 1 is erased. -/
def awaiting_pair_in_bank1_state : STM32L4X5FlashState :=
  { unlocked_pg_state with
    prev_write_addr := 2
    content := fun b i =>
      if b = 1 ∧ i = 2 then 0xDEADBEEF else if b = 0 ∧ i = 3 then 0x12345678 else 0xFFFFFFFF }

/-- An unlocked controller with `CR.PG` set over a drive that is all zero. -/
def zeroed_pg_state : STM32L4X5FlashState :=
  { unlocked_pg_state with content := fun _ _ => 0, blk := fun _ => 0 }

/-- An unlocked controller with `CR.PG` set whose bank 0 holds `0x12345678` in
its first word. -/
def programmed_pg_state : STM32L4X5FlashState :=
  { programmed_locked_state with flash_cr := FLASH_CR_PG }

/-- An unlocked controller, `CR.PG` clear, whose bank 0 holds `0x12345678` in
word 1536 (the first word of page 3), the drive mirroring it at offset 6144. -/
def page3_programmed_state : STM32L4X5FlashState :=
  { locked_state with
    flash_cr := 0
    content := fun b i => if b = 0 ∧ i = 1536 then 0x12345678 else 0xFFFFFFFF
    blk := fun k =>
      if k = 6144 then 0x78 else if k = 6145 then 0x56 else if k = 6146 then 0x34
      else if k = 6147 then 0x12 else 0xFF }

/-- An unlocked controller, `CR.PG` clear, with `0x12345678` in word 0 of bank 0
and `0xCAFEBABE` in word 0 of bank 1, the drive mirroring both. -/
def two_banks_programmed_state : STM32L4X5FlashState :=
  { locked_state with
    flash_cr := 0
    content := fun b i =>
      if i = 0 then (if b = 0 then 0x12345678 else if b = 1 then 0xCAFEBABE else 0xFFFFFFFF)
      else 0xFFFFFFFF
    blk := fun k =>
      if k = 0 then 0x78 else if k = 1 then 0x56 else if k = 2 then 0x34
      else if k = 3 then 0x12
      else if k = 524288 then 0xBE else if k = 524289 then 0xBA
      else if k = 524290 then 0xFE else if k = 524291 then 0xCA else 0xFF }

/-- The state `two_banks_programmed_state` with the bank-swap flag set. -/
def swapped_programmed_state : STM32L4X5FlashState :=
  { two_banks_programmed_state with swapped_banks := true }

/-- The device structure before attach: every member zero. -/
def unrealized_state : STM32L4X5FlashState :=
  { blk := fun _ => 0
    content := fun _ _ => 0
    flash_cr := 0
    flash_sr := 0
    prev_write_addr := 0
    unlock_stage := 0
    swapped_banks := false }

/-- A writable drive of `2 * BANK_SIZE` bytes, erased except for the first four
bytes of bank 1, which are `08 00 01 00`: read big-endian, `0x08000100`. -/
def fw_in_bank2_drive : BlockBackend :=
  { data := fun k =>
      if k = 524288 then 0x08 else if k = 524289 then 0x00
      else if k = 524290 then 0x01 else if k = 524291 then 0x00 else 0xFF
    length := 2 * BANK_SIZE
    supports_write_perm := true
    set_perm_ok := true }

/-- The state `two_banks_programmed_state` with `SR.EOP` and `SR.PROGERR` set and
`CR.PG` set. -/
def flags_set_state : STM32L4X5FlashState :=
  { two_banks_programmed_state with
    flash_sr := FLASH_SR_EOP ||| FLASH_SR_PROGERR
    flash_cr := FLASH_CR_PG }

/-- A writable, fully erased drive that is 512 bytes longer than the two banks. -/
def oversized_drive : BlockBackend :=
  { data := fun _ => 0xFF
    length := 2 * BANK_SIZE + 512
    supports_write_perm := true
    set_perm_ok := true }

/-- A writable, fully erased drive of one bank and a half. -/
def short_drive : BlockBackend :=
  { data := fun _ => 0xFF
    length := BANK_SIZE + BANK_SIZE / 2
    supports_write_perm := true
    set_perm_ok := true }

/-- A fully erased drive of `2 * BANK_SIZE` bytes that cannot be written. -/
def read_only_drive : BlockBackend :=
  { data := fun _ => 0xFF
    length := 2 * BANK_SIZE
    supports_write_perm := false
    set_perm_ok := true }

/-! ## Bit-level facts -/

theorem and_two_pow_ne_zero (x k : Nat) : x &&& 2 ^ k ≠ 0 ↔ x.testBit k = true := by
  rw [Nat.and_two_pow]
  cases h : x.testBit k <;> simp

theorem and_two_pow_eq_zero (x k : Nat) : x &&& 2 ^ k = 0 ↔ x.testBit k = false := by
  rw [Nat.and_two_pow]
  cases h : x.testBit k <;> simp

theorem testBit_not32 (x i : Nat) :
    (not32 x).testBit i = (decide (i < 32) && !x.testBit i) := by
  unfold not32
  rw [Nat.testBit_xor, Nat.testBit_two_pow_sub_one, Nat.testBit_mod_two_pow]
  by_cases h : i < 32 <;> simp [h]

theorem testBit_clear (x k i : Nat) :
    (x &&& not32 (2 ^ k)).testBit i = (x.testBit i && decide (i < 32) && !decide (k = i)) := by
  rw [Nat.testBit_and, testBit_not32, Nat.testBit_two_pow, Bool.and_assoc]

theorem testBit_set (x k i : Nat) :
    (x ||| 2 ^ k).testBit i = (x.testBit i || decide (k = i)) := by
  rw [Nat.testBit_or, Nat.testBit_two_pow]

theorem FLASH_CR_LOCK_eq : FLASH_CR_LOCK = 2 ^ 31 := by decide

theorem FLASH_CR_PG_eq : FLASH_CR_PG = 2 ^ 0 := by decide

theorem FLASH_CR_STRT_eq : FLASH_CR_STRT = 2 ^ 16 := by decide

theorem FLASH_SR_BSY_eq : FLASH_SR_BSY = 2 ^ 16 := by decide

theorem FLASH_SR_EOP_eq : FLASH_SR_EOP = 2 ^ 0 := by decide

theorem FLASH_SR_PROGERR_eq : FLASH_SR_PROGERR = 2 ^ 3 := by decide

theorem BANK_SIZE_eq : BANK_SIZE = 524288 := by decide

theorem and_three_eq_mod (a : Nat) : a &&& 0b11 = a % 4 :=
  Nat.and_pow_two_sub_one_eq_mod a 2

/-- Bit 17 of a word address below `2 ^ 18` is set exactly from `2 ^ 17` on. -/
theorem and_bank_bit (x : Nat) (h : x < 2 ^ 18) : x &&& 0x20000 ≠ 0 ↔ 2 ^ 17 ≤ x := by
  have e : (0x20000 : Nat) = 2 ^ 17 := by norm_num
  rw [e, and_two_pow_ne_zero, Nat.testBit_to_div_mod, decide_eq_true_iff]
  omega

theorem and_index_mask (x : Nat) : x &&& 0x1FFFF = x % 2 ^ 17 :=
  Nat.and_pow_two_sub_one_eq_mod x 17

theorem or_bank_bit (x : Nat) (h : x < 2 ^ 17) : x ||| 0x20000 = x + 2 ^ 17 := by
  have e : (0x20000 : Nat) = 2 ^ 17 * 1 := by norm_num
  rw [e, Nat.lor_comm, ← Nat.mul_add_lt_is_or h 1]
  omega

/-- The status word left by a rejected program write has `PROGERR` set. -/
theorem rejected_sr_progerr (sr : Nat) :
    (sr &&& not32 FLASH_SR_BSY ||| FLASH_SR_PROGERR) &&& FLASH_SR_PROGERR ≠ 0 := by
  rw [FLASH_SR_PROGERR_eq, and_two_pow_ne_zero, testBit_set]
  simp

/-- The status word left by a rejected program write has `BSY` clear. -/
theorem rejected_sr_bsy (sr : Nat) :
    (sr &&& not32 FLASH_SR_BSY ||| FLASH_SR_PROGERR) &&& FLASH_SR_BSY = 0 := by
  rw [FLASH_SR_PROGERR_eq, FLASH_SR_BSY_eq, and_two_pow_eq_zero, testBit_set, testBit_clear]
  simp

/-- The status word left by a completing program write has `EOP` set. -/
theorem completed_sr_eop (sr : Nat) :
    (sr &&& not32 FLASH_SR_BSY ||| FLASH_SR_EOP) &&& FLASH_SR_EOP ≠ 0 := by
  rw [FLASH_SR_EOP_eq, and_two_pow_ne_zero, testBit_set]
  simp

/-- The status word left by a completing program write has `BSY` clear. -/
theorem completed_sr_bsy (sr : Nat) :
    (sr &&& not32 FLASH_SR_BSY ||| FLASH_SR_EOP) &&& FLASH_SR_BSY = 0 := by
  rw [FLASH_SR_EOP_eq, FLASH_SR_BSY_eq, and_two_pow_eq_zero, testBit_set, testBit_clear]
  simp

/-! ## Address decoding of the program path -/

theorem effective_addr_eq (a : Nat) (h : a < 2 * BANK_SIZE) :
    effective_addr a = a % BANK_SIZE / 4 := by
  rw [BANK_SIZE_eq] at h ⊢
  have h1 : (a >>> 2) % 2 ^ 32 = a / 4 := by
    rw [Nat.shiftRight_eq_div_pow]; omega
  unfold effective_addr
  simp only [h1]
  have h2 : a / 4 < 2 ^ 18 := by omega
  by_cases hbit : a / 4 &&& 0x20000 ≠ 0
  · rw [if_pos hbit, and_index_mask]
    have := (and_bank_bit _ h2).1 hbit
    omega
  · rw [if_neg hbit]
    have : ¬ 2 ^ 17 ≤ a / 4 := fun hh => hbit ((and_bank_bit _ h2).2 hh)
    omega

theorem write_bank_eq (sw : Bool) (a : Nat) (h : a < 2 * BANK_SIZE) :
    write_bank sw a = if sw then 1 - a / BANK_SIZE else a / BANK_SIZE := by
  rw [BANK_SIZE_eq] at h ⊢
  have h1 : (a >>> 2) % 2 ^ 32 = a / 4 := by
    rw [Nat.shiftRight_eq_div_pow]; omega
  unfold write_bank
  simp only [h1]
  have h2 : a / 4 < 2 ^ 18 := by omega
  by_cases hbit : a / 4 &&& 0x20000 ≠ 0
  · have := (and_bank_bit _ h2).1 hbit
    have hq : a / 524288 = 1 := by omega
    rw [if_pos hbit, hq]
    cases sw <;> simp
  · have : ¬ 2 ^ 17 ≤ a / 4 := fun hh => hbit ((and_bank_bit _ h2).2 hh)
    have hq : a / 524288 = 0 := by omega
    rw [if_neg hbit, hq]
    cases sw <;> simp

/-- A store inside the first slot reaches the handler with its own offset. -/
theorem flash_store_first_slot (s : STM32L4X5FlashState) (wr_ok : Bool) (a v : Nat)
    (h : a < BANK_SIZE) :
    flash_store s wr_ok a v = stm32l4x5_flash_write s wr_ok a v := by
  unfold flash_store
  rw [Nat.mod_eq_of_lt h]

theorem effective_addr_first_slot (a : Nat) (h : a < BANK_SIZE) :
    effective_addr a = a / 4 := by
  rw [effective_addr_eq a (by omega), Nat.mod_eq_of_lt h]

/-- For an offset inside a bank region the bank bit of the word address is
clear, and the bank the handler works on is decided by the swap flag alone. -/
theorem write_bank_first_slot (sw : Bool) (a : Nat) (h : a < BANK_SIZE) :
    write_bank sw a = if sw then 1 else 0 := by
  rw [write_bank_eq sw a (by omega), Nat.div_eq_of_lt h]

/-! ## The register write, case by case -/

theorem mmio_write_KEYR (s : STM32L4X5FlashState) (wr_ok : Bool) (value : Nat) :
    stm32l4x5_flash_mmio_write s wr_ok FLASH_KEYR value
      = some (write_FLASH_KEYR s (value % 2 ^ 32)) := by
  unfold stm32l4x5_flash_mmio_write
  rw [if_neg (by decide), if_neg (by decide), if_pos rfl]

theorem mmio_write_CR (s : STM32L4X5FlashState) (wr_ok : Bool) (value : Nat) :
    stm32l4x5_flash_mmio_write s wr_ok FLASH_CR value = write_FLASH_CR s wr_ok value := by
  unfold stm32l4x5_flash_mmio_write
  rw [if_neg (by decide), if_pos rfl]

theorem mmio_write_SR (s : STM32L4X5FlashState) (wr_ok : Bool) (value : Nat) :
    stm32l4x5_flash_mmio_write s wr_ok FLASH_SR value
      = some (write_FLASH_SR s (value % 2 ^ 32)) := by
  unfold stm32l4x5_flash_mmio_write
  rw [if_pos rfl]

/-! ## Lock and unlock (C1 to C5) -/

/-- C1, evaluated where the code departs from it: on the reset state, which has
`CR.LOCK` set, a `CR` write of the value 0 (no key sequence involved) returns a
state whose `CR.LOCK` is clear. -/
theorem cr_write_clears_lock_without_keys :
    locked_state.flash_cr &&& FLASH_CR_LOCK ≠ 0 ∧
    (stm32l4x5_flash_mmio_write locked_state true FLASH_CR 0).map
      (fun s => s.flash_cr &&& FLASH_CR_LOCK) = some 0 := by
  decide

/-- C2: from any state with unlock stage 0, writing `KEY1` and then `KEY2` to
`KEYR` leaves `CR.LOCK` clear and the unlock stage at 0, keeps every other bit
of `CR`, and keeps `SR`, the tracker, both banks, the drive and the swap flag. -/
theorem keyr_key1_key2_unlocks (s : STM32L4X5FlashState) (ok1 ok2 : Bool)
    (h : s.unlock_stage = 0) :
    ∃ s1 s2, stm32l4x5_flash_mmio_write s ok1 FLASH_KEYR KEY1 = some s1 ∧
      stm32l4x5_flash_mmio_write s1 ok2 FLASH_KEYR KEY2 = some s2 ∧
      s2.flash_cr &&& FLASH_CR_LOCK = 0 ∧ s2.unlock_stage = 0 ∧
      (∀ i, i < 32 → i ≠ 31 → s2.flash_cr.testBit i = s.flash_cr.testBit i) ∧
      s2.flash_sr = s.flash_sr ∧ s2.prev_write_addr = s.prev_write_addr ∧
      s2.content = s.content ∧ s2.blk = s.blk ∧ s2.swapped_banks = s.swapped_banks := by
  refine ⟨{ s with unlock_stage := 1 },
    { s with unlock_stage := 0, flash_cr := s.flash_cr &&& not32 FLASH_CR_LOCK },
    ?_, ?_, ?_, rfl, ?_, rfl, rfl, rfl, rfl, rfl⟩
  · rw [mmio_write_KEYR, write_FLASH_KEYR, if_pos ⟨h, by decide⟩]
  · rw [mmio_write_KEYR, write_FLASH_KEYR, if_neg (by simp), if_pos ⟨rfl, by decide⟩]
  · show s.flash_cr &&& not32 FLASH_CR_LOCK &&& FLASH_CR_LOCK = 0
    rw [FLASH_CR_LOCK_eq, and_two_pow_eq_zero, testBit_clear]
    simp
  · intro i hi hne
    show (s.flash_cr &&& not32 FLASH_CR_LOCK).testBit i = s.flash_cr.testBit i
    rw [FLASH_CR_LOCK_eq, testBit_clear]
    simp [hi, Ne.symm hne]

theorem keyr_key1_key2_unlocks_witness :
    locked_state.unlock_stage = 0 ∧
    ∃ s1 s2, stm32l4x5_flash_mmio_write locked_state true FLASH_KEYR KEY1 = some s1 ∧
      stm32l4x5_flash_mmio_write s1 true FLASH_KEYR KEY2 = some s2 ∧
      s2.flash_cr &&& FLASH_CR_LOCK = 0 ∧ s2.unlock_stage = 0 ∧
      (∀ i, i < 32 → i ≠ 31 → s2.flash_cr.testBit i = locked_state.flash_cr.testBit i) ∧
      s2.flash_sr = locked_state.flash_sr ∧
      s2.prev_write_addr = locked_state.prev_write_addr ∧
      s2.content = locked_state.content ∧ s2.blk = locked_state.blk ∧
      s2.swapped_banks = locked_state.swapped_banks :=
  ⟨rfl, keyr_key1_key2_unlocks locked_state true true rfl⟩

/-- C3 as stated fails: on the reset state (stage 0, `CR.LOCK` set) the pair
`(0, KEY1)`, which is not `(KEY1, KEY2)`, leaves the unlock stage at 1. -/
theorem keyr_pair_ending_in_key1_reaches_stage1 :
    locked_state.unlock_stage = 0 ∧ locked_state.flash_cr &&& FLASH_CR_LOCK ≠ 0 ∧
    ¬ (0 = KEY1 ∧ KEY1 = KEY2) ∧
    ((stm32l4x5_flash_mmio_write locked_state true FLASH_KEYR 0).bind
      (fun s1 => stm32l4x5_flash_mmio_write s1 true FLASH_KEYR KEY1)).map
        (fun s2 => s2.unlock_stage) = some 1 := by
  decide

/-- C3, amended: from any state with unlock stage 0 and `CR.LOCK` set, writing
32-bit values `a` then `b` to `KEYR`, with `(a, b)` other than `(KEY1, KEY2)`,
leaves `CR.LOCK` set; the unlock stage afterwards is 0, except that it is 1
when `b` is `KEY1` and `a` is not (the second write opens a new attempt). -/
theorem keyr_wrong_pair_keeps_lock (s : STM32L4X5FlashState) (ok1 ok2 : Bool) (a b : Nat)
    (ha : a < 2 ^ 32) (hb : b < 2 ^ 32) (hs : s.unlock_stage = 0)
    (hl : s.flash_cr &&& FLASH_CR_LOCK ≠ 0) (hne : ¬ (a = KEY1 ∧ b = KEY2)) :
    ∃ s1 s2, stm32l4x5_flash_mmio_write s ok1 FLASH_KEYR a = some s1 ∧
      stm32l4x5_flash_mmio_write s1 ok2 FLASH_KEYR b = some s2 ∧
      s2.flash_cr &&& FLASH_CR_LOCK ≠ 0 ∧
      s2.unlock_stage = (if a ≠ KEY1 ∧ b = KEY1 then 1 else 0) := by
  refine ⟨write_FLASH_KEYR s a, write_FLASH_KEYR (write_FLASH_KEYR s a) b, ?_, ?_, ?_, ?_⟩
  · rw [mmio_write_KEYR, Nat.mod_eq_of_lt ha]
  · rw [mmio_write_KEYR, Nat.mod_eq_of_lt hb]
  · by_cases h1 : a = KEY1
    · have h2 : b ≠ KEY2 := fun h => hne ⟨h1, h⟩
      simp [write_FLASH_KEYR, hs, h1, h2, hl]
    · by_cases h3 : b = KEY1
      · simp [write_FLASH_KEYR, hs, h1, h3, hl]
      · simp [write_FLASH_KEYR, hs, h1, h3, hl]
  · by_cases h1 : a = KEY1
    · have h2 : b ≠ KEY2 := fun h => hne ⟨h1, h⟩
      simp [write_FLASH_KEYR, hs, h1, h2]
    · by_cases h3 : b = KEY1
      · simp [write_FLASH_KEYR, hs, h1, h3]
      · simp [write_FLASH_KEYR, hs, h1, h3]

theorem keyr_wrong_pair_keeps_lock_witness :
    ∃ s1 s2, stm32l4x5_flash_mmio_write locked_state true FLASH_KEYR KEY1 = some s1 ∧
      stm32l4x5_flash_mmio_write s1 true FLASH_KEYR 0x12345678 = some s2 ∧
      s2.flash_cr &&& FLASH_CR_LOCK ≠ 0 ∧
      s2.unlock_stage = (if KEY1 ≠ KEY1 ∧ 0x12345678 = KEY1 then 1 else 0) :=
  keyr_wrong_pair_keeps_lock locked_state true true KEY1 0x12345678 (by decide) (by decide)
    rfl (by decide) (by decide)

/-- C4: for every state and every written value with the `LOCK` bit (bit 31)
set, the `CR` write returns with `CR.LOCK` set and the unlock stage at 0; every
other bit of `CR` keeps its value whatever the written value holds, and `SR`,
the tracker, both banks, the drive and the swap flag are unchanged, so no erase
takes place. -/
theorem cr_write_with_lock_bit (s : STM32L4X5FlashState) (wr_ok : Bool) (v : Nat)
    (hl : v % 2 ^ 32 &&& FLASH_CR_LOCK ≠ 0) :
    ∃ s1, stm32l4x5_flash_mmio_write s wr_ok FLASH_CR v = some s1 ∧
      s1.flash_cr &&& FLASH_CR_LOCK ≠ 0 ∧ s1.unlock_stage = 0 ∧
      (∀ i, i ≠ 31 → s1.flash_cr.testBit i = s.flash_cr.testBit i) ∧
      s1.flash_sr = s.flash_sr ∧ s1.prev_write_addr = s.prev_write_addr ∧
      s1.content = s.content ∧ s1.blk = s.blk ∧ s1.swapped_banks = s.swapped_banks := by
  refine ⟨{ s with flash_cr := s.flash_cr ||| FLASH_CR_LOCK, unlock_stage := 0 },
    ?_, ?_, rfl, ?_, rfl, rfl, rfl, rfl, rfl⟩
  · rw [mmio_write_CR]
    unfold write_FLASH_CR
    rw [if_pos hl]
  · show (s.flash_cr ||| FLASH_CR_LOCK) &&& FLASH_CR_LOCK ≠ 0
    rw [FLASH_CR_LOCK_eq, and_two_pow_ne_zero, testBit_set]
    simp
  · intro i hne
    show (s.flash_cr ||| FLASH_CR_LOCK).testBit i = s.flash_cr.testBit i
    rw [FLASH_CR_LOCK_eq, testBit_set]
    simp [Ne.symm hne]

theorem cr_write_with_lock_bit_witness :
    0x80018006 % 2 ^ 32 &&& FLASH_CR_LOCK ≠ 0 ∧
    ∃ s1, stm32l4x5_flash_mmio_write programmed_pg_state true FLASH_CR 0x80018006 = some s1 ∧
      s1.flash_cr &&& FLASH_CR_LOCK ≠ 0 ∧ s1.unlock_stage = 0 ∧
      (∀ i, i ≠ 31 → s1.flash_cr.testBit i = programmed_pg_state.flash_cr.testBit i) ∧
      s1.flash_sr = programmed_pg_state.flash_sr ∧
      s1.prev_write_addr = programmed_pg_state.prev_write_addr ∧
      s1.content = programmed_pg_state.content ∧ s1.blk = programmed_pg_state.blk ∧
      s1.swapped_banks = programmed_pg_state.swapped_banks :=
  ⟨by decide, cr_write_with_lock_bit programmed_pg_state true 0x80018006 (by decide)⟩

/-- C5, evaluated where the code departs from it: on a locked controller whose
bank 0 holds `0x12345678` in word 0, a `CR` write of `STRT | PER` (page 0,
bank 0, `LOCK` clear) does not set `SR.PROGERR`; it erases the page in the
bank and on the drive, sets `SR.EOP` and leaves `CR.LOCK` clear. -/
theorem cr_write_start_erases_while_locked :
    programmed_locked_state.flash_cr &&& FLASH_CR_LOCK ≠ 0 ∧
    programmed_locked_state.content 0 0 = 0x12345678 ∧
    programmed_locked_state.blk 0 = 0x78 ∧
    (stm32l4x5_flash_mmio_write programmed_locked_state true FLASH_CR 0x10002).map
      (fun s => (s.flash_sr &&& FLASH_SR_PROGERR, s.flash_sr &&& FLASH_SR_EOP,
        s.content 0 0, s.blk 0, s.flash_cr &&& FLASH_CR_LOCK))
      = some (0, 1, 0xFFFFFFFF, 0xFF, 0) := by
  decide


/-! ## The program path, branch by branch -/

theorem flash_write_rejected (s : STM32L4X5FlashState) (wr_ok : Bool) (a v : Nat)
    (h : write_rejected s a = true) :
    stm32l4x5_flash_write s wr_ok a v = (MemTxResult.MEMTX_OK,
      { s with flash_sr := (s.flash_sr &&& not32 FLASH_SR_BSY) ||| FLASH_SR_PROGERR }) := by
  unfold stm32l4x5_flash_write
  simp only [h, if_true]

theorem flash_write_accepted_content (s : STM32L4X5FlashState) (wr_ok : Bool) (a v : Nat)
    (h : write_rejected s a = false) (b i : Nat) :
    (stm32l4x5_flash_write s wr_ok a v).2.content b i =
      if b = write_bank s.swapped_banks a ∧ i = effective_addr a then v % 2 ^ 32
      else s.content b i := by
  unfold stm32l4x5_flash_write
  simp only [h, Bool.false_eq_true, if_false]
  by_cases h1 : s.prev_write_addr = 0 ∧ effective_addr a ≠ 1
  · rw [if_pos h1]
  · rw [if_neg h1]

theorem flash_write_accepted_blk (s : STM32L4X5FlashState) (wr_ok : Bool) (a v : Nat)
    (h : write_rejected s a = false) :
    (stm32l4x5_flash_write s wr_ok a v).2.blk =
      blk_pwrite wr_ok s.blk
        (((if write_bank s.swapped_banks a ≠ 0 then effective_addr a ||| 0x20000
            else effective_addr a) <<< 2) % 2 ^ 32) 4
        (fun j => ((v % 2 ^ 32) >>> (8 * j)) % 256) := by
  unfold stm32l4x5_flash_write
  simp only [h, Bool.false_eq_true, if_false]
  by_cases h1 : s.prev_write_addr = 0 ∧ effective_addr a ≠ 1
  · rw [if_pos h1]
  · rw [if_neg h1]

theorem flash_write_accepted_first (s : STM32L4X5FlashState) (wr_ok : Bool) (a v : Nat)
    (h : write_rejected s a = false) (h1 : s.prev_write_addr = 0 ∧ effective_addr a ≠ 1) :
    (stm32l4x5_flash_write s wr_ok a v).2.prev_write_addr = effective_addr a ∧
    (stm32l4x5_flash_write s wr_ok a v).2.flash_sr = s.flash_sr := by
  unfold stm32l4x5_flash_write
  simp only [h, Bool.false_eq_true, if_false]
  rw [if_pos h1]
  exact ⟨rfl, rfl⟩

theorem flash_write_accepted_second (s : STM32L4X5FlashState) (wr_ok : Bool) (a v : Nat)
    (h : write_rejected s a = false) (h1 : ¬ (s.prev_write_addr = 0 ∧ effective_addr a ≠ 1)) :
    (stm32l4x5_flash_write s wr_ok a v).2.prev_write_addr = 0 ∧
    (stm32l4x5_flash_write s wr_ok a v).2.flash_sr =
      (s.flash_sr &&& not32 FLASH_SR_BSY) ||| FLASH_SR_EOP := by
  unfold stm32l4x5_flash_write
  simp only [h, Bool.false_eq_true, if_false]
  rw [if_neg h1]
  exact ⟨rfl, rfl⟩

theorem flash_write_accepted_cell (s : STM32L4X5FlashState) (wr_ok : Bool) (a v : Nat)
    (h : write_rejected s a = false) :
    (stm32l4x5_flash_write s wr_ok a v).2.content (write_bank s.swapped_banks a)
      (effective_addr a) = v % 2 ^ 32 := by
  rw [flash_write_accepted_content s wr_ok a v h]
  simp

theorem flash_write_accepted_other (s : STM32L4X5FlashState) (wr_ok : Bool) (a v : Nat)
    (h : write_rejected s a = false) (b i : Nat)
    (hne : ¬ (b = write_bank s.swapped_banks a ∧ i = effective_addr a)) :
    (stm32l4x5_flash_write s wr_ok a v).2.content b i = s.content b i := by
  rw [flash_write_accepted_content s wr_ok a v h, if_neg hne]

/-- The drive offset computed by the program path is the physical bank base
plus the byte offset of the word. -/
theorem drive_offset_eq (bank i : Nat) (hb : bank < 2) (hi : i < 2 ^ 17) :
    ((if bank ≠ 0 then i ||| 0x20000 else i) <<< 2) % 2 ^ 32 = bank * BANK_SIZE + 4 * i := by
  rw [BANK_SIZE_eq, Nat.shiftLeft_eq]
  by_cases h : bank = 0
  · subst h
    simp only [ne_eq, not_true_eq_false, if_false]
    omega
  · have h1 : bank = 1 := by omega
    subst h1
    rw [if_pos (by decide), or_bank_bit i hi]
    omega


/-- The precondition check passes when the controller is unlocked, the address
is aligned, `CR.PG` is set, the tracker is empty or names the preceding word,
and the target cell holds zero or the erased pattern. -/
theorem write_accepted (s : STM32L4X5FlashState) (a : Nat)
    (hlock : s.flash_cr &&& FLASH_CR_LOCK = 0) (hal : a % 4 = 0)
    (hpg : s.flash_cr &&& FLASH_CR_PG ≠ 0)
    (hseq : s.prev_write_addr = 0 ∨ (s.prev_write_addr + 1) % 2 ^ 32 = effective_addr a)
    (hcell : s.content (write_bank s.swapped_banks a) (effective_addr a) = 0x00
      ∨ s.content (write_bank s.swapped_banks a) (effective_addr a) = 0xFFFFFFFF) :
    write_rejected s a = false := by
  unfold write_rejected
  rw [decide_eq_false_iff_not]
  rintro (h | h | h | h | h)
  · exact h hlock
  · rw [and_three_eq_mod] at h
    exact h hal
  · exact hpg h
  · rcases hseq with h0 | h1
    · omega
    · exact h.2 h1
  · rcases hcell with h0 | h1
    · exact h.1 h0
    · exact h.2 h1

/-! ## The program path (C6 to C10) -/

/-- C6 as stated fails on the scenario of the specification: with the
controller unlocked, `CR.PG` set, the tracker empty and every cell erased, the
write of `0xDEADBEEF` to offset 0 leaves `SR.BSY` clear and the tracker at 0;
and the same first write made to offset 4 sets `SR.EOP`. -/
theorem first_word_leaves_bsy_clear :
    unlocked_pg_state.flash_cr &&& FLASH_CR_LOCK = 0 ∧
    unlocked_pg_state.flash_cr &&& FLASH_CR_PG ≠ 0 ∧
    unlocked_pg_state.prev_write_addr = 0 ∧
    unlocked_pg_state.content 0 0 = 0xFFFFFFFF ∧
    unlocked_pg_state.content 0 1 = 0xFFFFFFFF ∧
    (stm32l4x5_flash_write unlocked_pg_state true 0 0xDEADBEEF).2.content 0 0 = 0xDEADBEEF ∧
    (stm32l4x5_flash_write unlocked_pg_state true 0 0xDEADBEEF).2.flash_sr
      &&& FLASH_SR_BSY = 0 ∧
    (stm32l4x5_flash_write unlocked_pg_state true 4 0xDEADBEEF).2.flash_sr
      &&& FLASH_SR_EOP ≠ 0 ∧
    (stm32l4x5_flash_write unlocked_pg_state true 4 0xDEADBEEF).2.prev_write_addr = 0 := by
  decide

/-- C6, amended: with `CR.LOCK` clear, `CR.PG` set and the tracker empty (0),
a store of a 32-bit `v` at an aligned offset `a < BANK_SIZE` of the flash
address space (the first slot) whose word index `a / 4` is not 1 and whose
cell, word `a / 4` of bank 1 when the swap flag is set and of bank 0 otherwise,
holds `0xFFFFFFFF` makes that cell hold `v`, stores `a / 4` in the tracker and
leaves `SR` as it was: the store sets neither `SR.BSY` nor `SR.EOP`. -/
theorem first_word_program (s : STM32L4X5FlashState) (wr_ok : Bool) (a v : Nat)
    (hv : v < 2 ^ 32) (hlock : s.flash_cr &&& FLASH_CR_LOCK = 0)
    (hpg : s.flash_cr &&& FLASH_CR_PG ≠ 0) (hprev : s.prev_write_addr = 0)
    (hal : a % 4 = 0) (ha : a < BANK_SIZE) (hidx : a / 4 ≠ 1)
    (hcell : s.content (if s.swapped_banks then 1 else 0) (a / 4) = 0xFFFFFFFF) :
    (flash_store s wr_ok a v).2.content (if s.swapped_banks then 1 else 0) (a / 4) = v ∧
    (flash_store s wr_ok a v).2.prev_write_addr = a / 4 ∧
    (flash_store s wr_ok a v).2.flash_sr = s.flash_sr := by
  rw [flash_store_first_slot s wr_ok a v ha]
  have hea := effective_addr_first_slot a ha
  have hbk := write_bank_first_slot s.swapped_banks a ha
  have hacc : write_rejected s a = false := by
    apply write_accepted s a hlock hal hpg (Or.inl hprev)
    right
    rw [hea, hbk]
    exact hcell
  have h1 := flash_write_accepted_first s wr_ok a v hacc ⟨hprev, by rw [hea]; exact hidx⟩
  have hc := flash_write_accepted_cell s wr_ok a v hacc
  rw [hea, hbk, Nat.mod_eq_of_lt hv] at hc
  rw [hea] at h1
  exact ⟨hc, h1.1, h1.2⟩

theorem first_word_program_witness :
    (flash_store unlocked_pg_state true 8 0xDEADBEEF).2.content
      (if unlocked_pg_state.swapped_banks then 1 else 0) (8 / 4) = 0xDEADBEEF ∧
    (flash_store unlocked_pg_state true 8 0xDEADBEEF).2.prev_write_addr = 8 / 4 ∧
    (flash_store unlocked_pg_state true 8 0xDEADBEEF).2.flash_sr
      = unlocked_pg_state.flash_sr :=
  first_word_program unlocked_pg_state true 8 0xDEADBEEF (by decide) (by decide) (by decide)
    rfl (by decide) (by decide) (by decide) (by decide)

/-- In the first slot the second word of a pair is programmed: with `CR.LOCK`
clear, `CR.PG` set and the tracker holding word address `w`, a store of a
32-bit `v` at offset `4 * (w + 1)`, below `BANK_SIZE`, whose cell (word `w + 1`
of bank 1 when the swap flag is set, of bank 0 otherwise) holds `0xFFFFFFFF`
makes the cell hold `v`, clears the tracker, clears `SR.BSY` and sets
`SR.EOP`. -/
theorem second_word_first_slot (s : STM32L4X5FlashState) (wr_ok : Bool) (w v : Nat)
    (hv : v < 2 ^ 32) (hw : w + 1 < BANK_SIZE / 4)
    (hlock : s.flash_cr &&& FLASH_CR_LOCK = 0) (hpg : s.flash_cr &&& FLASH_CR_PG ≠ 0)
    (hprev : s.prev_write_addr = w)
    (hcell : s.content (if s.swapped_banks then 1 else 0) (w + 1) = 0xFFFFFFFF) :
    (flash_store s wr_ok (4 * (w + 1)) v).2.content
      (if s.swapped_banks then 1 else 0) (w + 1) = v ∧
    (flash_store s wr_ok (4 * (w + 1)) v).2.prev_write_addr = 0 ∧
    (flash_store s wr_ok (4 * (w + 1)) v).2.flash_sr &&& FLASH_SR_BSY = 0 ∧
    (flash_store s wr_ok (4 * (w + 1)) v).2.flash_sr &&& FLASH_SR_EOP ≠ 0 := by
  have ha : 4 * (w + 1) < BANK_SIZE := by
    rw [BANK_SIZE_eq] at hw ⊢
    omega
  have hr : 4 * (w + 1) / 4 = w + 1 := by omega
  rw [flash_store_first_slot s wr_ok _ v ha]
  have hea := effective_addr_first_slot _ ha
  have hbk := write_bank_first_slot s.swapped_banks _ ha
  rw [hr] at hea
  have hacc : write_rejected s (4 * (w + 1)) = false := by
    apply write_accepted s _ hlock (by omega) hpg
    · right
      rw [hea, hprev]
      rw [BANK_SIZE_eq] at hw
      omega
    · right
      rw [hea, hbk]
      exact hcell
  have h2 := flash_write_accepted_second s wr_ok _ v hacc (by
    rw [hea, hprev]
    omega)
  have hc := flash_write_accepted_cell s wr_ok _ v hacc
  rw [hea, hbk, Nat.mod_eq_of_lt hv] at hc
  refine ⟨hc, h2.1, ?_, ?_⟩
  · rw [h2.2]
    exact completed_sr_bsy _
  · rw [h2.2]
    exact completed_sr_eop _

/-- C7, evaluated where the code departs from it: the swap flag is clear, so the
second slot of the flash address space is bank 1; `CR.LOCK` is clear, `CR.PG` is
set, the tracker holds 2 and word 3 of bank 1 holds `0xFFFFFFFF`, while word 3
of bank 0 is programmed.  The store of `0xCAFEBABE` to word 3 of the second
slot, offset `BANK_SIZE + 12`, reaches the handler as offset 12 of a bank
region; the handler tests word 3 of bank 0 and rejects the store.  Word 3 of
bank 1 still holds `0xFFFFFFFF`, the tracker still holds 2, `SR.EOP` is clear
and `SR.PROGERR` is set. -/
theorem second_word_in_second_slot_rejected :
    awaiting_pair_in_bank1_state.flash_cr &&& FLASH_CR_LOCK = 0 ∧
    awaiting_pair_in_bank1_state.flash_cr &&& FLASH_CR_PG ≠ 0 ∧
    awaiting_pair_in_bank1_state.prev_write_addr = 2 ∧
    banks awaiting_pair_in_bank1_state.swapped_banks ((BANK_SIZE + 12) / BANK_SIZE) = 1 ∧
    (BANK_SIZE + 12) % BANK_SIZE / 4 = 2 + 1 ∧
    flash_read awaiting_pair_in_bank1_state (BANK_SIZE + 12) = 0xFFFFFFFF ∧
    awaiting_pair_in_bank1_state.content 1 3 = 0xFFFFFFFF ∧
    (flash_store awaiting_pair_in_bank1_state true (BANK_SIZE + 12) 0xCAFEBABE).2.content 1 3
      = 0xFFFFFFFF ∧
    (flash_store awaiting_pair_in_bank1_state true (BANK_SIZE + 12) 0xCAFEBABE).2.prev_write_addr
      = 2 ∧
    (flash_store awaiting_pair_in_bank1_state true (BANK_SIZE + 12) 0xCAFEBABE).2.flash_sr
      &&& FLASH_SR_EOP = 0 ∧
    (flash_store awaiting_pair_in_bank1_state true (BANK_SIZE + 12) 0xCAFEBABE).2.flash_sr
      &&& FLASH_SR_PROGERR ≠ 0 := by
  decide

/-- C8 as stated fails when the drive write fails: the write of `0xDEADBEEF`
to offset 0 is accepted and reaches bank 0, while the four drive bytes at
offset 0 still hold `0xFF` and not the bytes `EF BE AD DE` of the value. -/
theorem accepted_write_with_failed_drive_write :
    write_rejected unlocked_pg_state 0 = false ∧
    (stm32l4x5_flash_write unlocked_pg_state false 0 0xDEADBEEF).2.content 0 0 = 0xDEADBEEF ∧
    (0xDEADBEEF >>> (8 * 0)) % 256 = 0xEF ∧
    ((stm32l4x5_flash_write unlocked_pg_state false 0 0xDEADBEEF).2.blk 0,
     (stm32l4x5_flash_write unlocked_pg_state false 0 0xDEADBEEF).2.blk 1,
     (stm32l4x5_flash_write unlocked_pg_state false 0 0xDEADBEEF).2.blk 2,
     (stm32l4x5_flash_write unlocked_pg_state false 0 0xDEADBEEF).2.blk 3)
      = (0xFF, 0xFF, 0xFF, 0xFF) := by
  decide

/-- C8, amended: for every accepted store of a 32-bit `v` at an offset
`a < BANK_SIZE` of the flash address space (the first slot) whose drive write
succeeds, with `i = a / 4` and `P = 1` if the swap flag is set and `P = 0`
otherwise: afterwards word `i` of bank `P` is `v`, the four drive bytes at
`P * BANK_SIZE + 4 * i` are the bytes of `v` (least significant first, so they
read back as `v`), every other bank word is unchanged and every other drive
byte is unchanged. -/
theorem program_write_effect (s : STM32L4X5FlashState) (a v : Nat)
    (hv : v < 2 ^ 32) (ha : a < BANK_SIZE) (hacc : write_rejected s a = false) :
    (flash_store s true a v).2.content (if s.swapped_banks then 1 else 0) (a / 4) = v ∧
    (∀ j, j < 4 →
      (flash_store s true a v).2.blk
        ((if s.swapped_banks then 1 else 0) * BANK_SIZE + 4 * (a / 4) + j)
        = (v >>> (8 * j)) % 256) ∧
    (flash_store s true a v).2.blk
        ((if s.swapped_banks then 1 else 0) * BANK_SIZE + 4 * (a / 4))
      + 2 ^ 8 * (flash_store s true a v).2.blk
        ((if s.swapped_banks then 1 else 0) * BANK_SIZE + 4 * (a / 4) + 1)
      + 2 ^ 16 * (flash_store s true a v).2.blk
        ((if s.swapped_banks then 1 else 0) * BANK_SIZE + 4 * (a / 4) + 2)
      + 2 ^ 24 * (flash_store s true a v).2.blk
        ((if s.swapped_banks then 1 else 0) * BANK_SIZE + 4 * (a / 4) + 3) = v ∧
    (∀ b k, ¬ (b = (if s.swapped_banks then 1 else 0) ∧ k = a / 4) →
      (flash_store s true a v).2.content b k = s.content b k) ∧
    (∀ k, (k < (if s.swapped_banks then 1 else 0) * BANK_SIZE + 4 * (a / 4)
        ∨ (if s.swapped_banks then 1 else 0) * BANK_SIZE + 4 * (a / 4) + 4 ≤ k) →
      (flash_store s true a v).2.blk k = s.blk k) := by
  rw [flash_store_first_slot s true a v ha]
  have hea := effective_addr_first_slot a ha
  have hbk := write_bank_first_slot s.swapped_banks a ha
  have hi : a / 4 < 2 ^ 17 := by
    rw [BANK_SIZE_eq] at ha
    omega
  have hP : (if s.swapped_banks then 1 else 0) < 2 := by
    split <;> omega
  have hc := flash_write_accepted_cell s true a v hacc
  have hblk := flash_write_accepted_blk s true a v hacc
  rw [hea, hbk, Nat.mod_eq_of_lt hv] at hc
  rw [hea, hbk, Nat.mod_eq_of_lt hv, drive_offset_eq _ _ hP hi] at hblk
  have hbyte : ∀ j, j < 4 →
      (stm32l4x5_flash_write s true a v).2.blk
        ((if s.swapped_banks then 1 else 0) * BANK_SIZE + 4 * (a / 4) + j)
        = (v >>> (8 * j)) % 256 := by
    intro j hj
    rw [hblk]
    unfold blk_pwrite
    rw [if_pos rfl]
    simp only []
    rw [if_pos ⟨by omega, by omega⟩]
    congr 3
    omega
  refine ⟨hc, hbyte, ?_, ?_, ?_⟩
  · have h0 := hbyte 0 (by omega)
    have h1 := hbyte 1 (by omega)
    have h2 := hbyte 2 (by omega)
    have h3 := hbyte 3 (by omega)
    rw [Nat.add_zero] at h0
    rw [h0, h1, h2, h3]
    simp only [Nat.shiftRight_eq_div_pow]
    omega
  · intro b k hne
    apply flash_write_accepted_other s true a v hacc
    rw [hea, hbk]
    exact hne
  · intro k hk
    rw [hblk]
    unfold blk_pwrite
    rw [if_pos rfl]
    simp only []
    rw [if_neg (by omega)]

theorem program_write_effect_witness :
    (flash_store unlocked_pg_state true 8 0xDEADBEEF).2.content
      (if unlocked_pg_state.swapped_banks then 1 else 0) (8 / 4) = 0xDEADBEEF ∧
    (∀ j, j < 4 →
      (flash_store unlocked_pg_state true 8 0xDEADBEEF).2.blk
        ((if unlocked_pg_state.swapped_banks then 1 else 0) * BANK_SIZE + 4 * (8 / 4) + j)
        = (0xDEADBEEF >>> (8 * j)) % 256) ∧
    (flash_store unlocked_pg_state true 8 0xDEADBEEF).2.blk
        ((if unlocked_pg_state.swapped_banks then 1 else 0) * BANK_SIZE + 4 * (8 / 4))
      + 2 ^ 8 * (flash_store unlocked_pg_state true 8 0xDEADBEEF).2.blk
        ((if unlocked_pg_state.swapped_banks then 1 else 0) * BANK_SIZE + 4 * (8 / 4) + 1)
      + 2 ^ 16 * (flash_store unlocked_pg_state true 8 0xDEADBEEF).2.blk
        ((if unlocked_pg_state.swapped_banks then 1 else 0) * BANK_SIZE + 4 * (8 / 4) + 2)
      + 2 ^ 24 * (flash_store unlocked_pg_state true 8 0xDEADBEEF).2.blk
        ((if unlocked_pg_state.swapped_banks then 1 else 0) * BANK_SIZE + 4 * (8 / 4) + 3)
      = 0xDEADBEEF ∧
    (∀ b k, ¬ (b = (if unlocked_pg_state.swapped_banks then 1 else 0) ∧ k = 8 / 4) →
      (flash_store unlocked_pg_state true 8 0xDEADBEEF).2.content b k
        = unlocked_pg_state.content b k) ∧
    (∀ k, (k < (if unlocked_pg_state.swapped_banks then 1 else 0) * BANK_SIZE + 4 * (8 / 4)
        ∨ (if unlocked_pg_state.swapped_banks then 1 else 0) * BANK_SIZE + 4 * (8 / 4) + 4
          ≤ k) →
      (flash_store unlocked_pg_state true 8 0xDEADBEEF).2.blk k = unlocked_pg_state.blk k) :=
  program_write_effect unlocked_pg_state 8 0xDEADBEEF (by decide) (by decide) (by decide)

/-- C9: a program write made while `CR.LOCK` is set, or to an address that is
not a multiple of 4, or while `CR.PG` is clear, sets `SR.PROGERR`, clears
`SR.BSY` and leaves both banks and the drive unchanged. -/
theorem program_write_rejected (s : STM32L4X5FlashState) (wr_ok : Bool) (a v : Nat)
    (h : s.flash_cr &&& FLASH_CR_LOCK ≠ 0 ∨ a % 4 ≠ 0 ∨ s.flash_cr &&& FLASH_CR_PG = 0) :
    (stm32l4x5_flash_write s wr_ok a v).2.flash_sr &&& FLASH_SR_PROGERR ≠ 0 ∧
    (stm32l4x5_flash_write s wr_ok a v).2.flash_sr &&& FLASH_SR_BSY = 0 ∧
    (stm32l4x5_flash_write s wr_ok a v).2.content = s.content ∧
    (stm32l4x5_flash_write s wr_ok a v).2.blk = s.blk := by
  have hrej : write_rejected s a = true := by
    unfold write_rejected
    rw [decide_eq_true_iff, and_three_eq_mod]
    rcases h with h | h | h
    · exact Or.inl h
    · exact Or.inr (Or.inl h)
    · exact Or.inr (Or.inr (Or.inl h))
  rw [flash_write_rejected s wr_ok a v hrej]
  exact ⟨rejected_sr_progerr _, rejected_sr_bsy _, rfl, rfl⟩

theorem program_write_rejected_witness :
    (stm32l4x5_flash_write unlocked_pg_state true 2 0xDEADBEEF).2.flash_sr
      &&& FLASH_SR_PROGERR ≠ 0 ∧
    (stm32l4x5_flash_write unlocked_pg_state true 2 0xDEADBEEF).2.flash_sr
      &&& FLASH_SR_BSY = 0 ∧
    (stm32l4x5_flash_write unlocked_pg_state true 2 0xDEADBEEF).2.content
      = unlocked_pg_state.content ∧
    (stm32l4x5_flash_write unlocked_pg_state true 2 0xDEADBEEF).2.blk
      = unlocked_pg_state.blk :=
  program_write_rejected unlocked_pg_state true 2 0xDEADBEEF (Or.inr (Or.inl (by decide)))

/-- C10 as stated fails for a cell that holds zero: with every cell zero, the
controller unlocked and `CR.PG` set, the write of `0xDEADBEEF` to offset 8 is
not rejected: `SR.PROGERR` stays clear and the cell takes the new value. -/
theorem zero_cell_is_programmable :
    zeroed_pg_state.content 0 2 = 0 ∧
    zeroed_pg_state.content 0 2 ≠ 0xFFFFFFFF ∧
    (stm32l4x5_flash_write zeroed_pg_state true 8 0xDEADBEEF).2.flash_sr
      &&& FLASH_SR_PROGERR = 0 ∧
    (stm32l4x5_flash_write zeroed_pg_state true 8 0xDEADBEEF).2.content 0 2 = 0xDEADBEEF := by
  decide

/-- C10, amended: a store at an offset `a < BANK_SIZE` of the flash address
space (the first slot) whose target cell, word `a / 4` of bank 1 when the swap
flag is set and of bank 0 otherwise, holds a value other than `0xFFFFFFFF` and
other than `0` is rejected: `SR.PROGERR` is set, `SR.BSY` is cleared, and the
cell, like all bank content and the drive, keeps its previous value. -/
theorem program_write_rejected_on_programmed_cell (s : STM32L4X5FlashState) (wr_ok : Bool)
    (a v : Nat) (ha : a < BANK_SIZE)
    (hne : s.content (if s.swapped_banks then 1 else 0) (a / 4) ≠ 0xFFFFFFFF)
    (hnz : s.content (if s.swapped_banks then 1 else 0) (a / 4) ≠ 0) :
    (flash_store s wr_ok a v).2.flash_sr &&& FLASH_SR_PROGERR ≠ 0 ∧
    (flash_store s wr_ok a v).2.flash_sr &&& FLASH_SR_BSY = 0 ∧
    (flash_store s wr_ok a v).2.content = s.content ∧
    (flash_store s wr_ok a v).2.blk = s.blk := by
  rw [flash_store_first_slot s wr_ok a v ha]
  have hrej : write_rejected s a = true := by
    unfold write_rejected
    rw [decide_eq_true_iff, effective_addr_first_slot a ha,
      write_bank_first_slot s.swapped_banks a ha]
    exact Or.inr (Or.inr (Or.inr (Or.inr ⟨hnz, hne⟩)))
  rw [flash_write_rejected s wr_ok a v hrej]
  exact ⟨rejected_sr_progerr _, rejected_sr_bsy _, rfl, rfl⟩

theorem program_write_rejected_on_programmed_cell_witness :
    (flash_store programmed_pg_state true 0 0xDEADBEEF).2.flash_sr
      &&& FLASH_SR_PROGERR ≠ 0 ∧
    (flash_store programmed_pg_state true 0 0xDEADBEEF).2.flash_sr
      &&& FLASH_SR_BSY = 0 ∧
    (flash_store programmed_pg_state true 0 0xDEADBEEF).2.content
      = programmed_pg_state.content ∧
    (flash_store programmed_pg_state true 0 0xDEADBEEF).2.blk
      = programmed_pg_state.blk :=
  program_write_rejected_on_programmed_cell programmed_pg_state true 0 0xDEADBEEF
    (by decide) (by decide) (by decide)


/-- The program path never writes `CR`. -/
theorem flash_write_cr (s : STM32L4X5FlashState) (wr_ok : Bool) (a v : Nat) :
    (stm32l4x5_flash_write s wr_ok a v).2.flash_cr = s.flash_cr := by
  cases h : write_rejected s a
  · unfold stm32l4x5_flash_write
    simp only [h, Bool.false_eq_true, if_false]
    by_cases h1 : s.prev_write_addr = 0 ∧ effective_addr a ≠ 1
    · rw [if_pos h1]
    · rw [if_neg h1]
  · rw [flash_write_rejected s wr_ok a v h]

/-! ## Operations that keep the lock -/

/-- Lock preservation: from a state with `CR.LOCK` set, the lock stays set across
a system reset, across every program write, across every register write to an
offset other than `CR` (a `KEYR` write of `KEY2` at unlock stage 1 apart), and
across every `CR` write whose value has the `LOCK` bit set.  A register read
returns a value and has no state to change. -/
theorem lock_kept_outside_cr_write (s : STM32L4X5FlashState)
    (h : s.flash_cr &&& FLASH_CR_LOCK ≠ 0) :
    (stm32l4x5_flash_system_reset s).flash_cr &&& FLASH_CR_LOCK ≠ 0 ∧
    (∀ wr_ok a v, (stm32l4x5_flash_write s wr_ok a v).2.flash_cr &&& FLASH_CR_LOCK ≠ 0) ∧
    (∀ wr_ok addr v, addr ≠ FLASH_CR →
      ¬ (addr = FLASH_KEYR ∧ s.unlock_stage = 1 ∧ v % 2 ^ 32 = KEY2) →
      ∃ s1, stm32l4x5_flash_mmio_write s wr_ok addr v = some s1 ∧
        s1.flash_cr &&& FLASH_CR_LOCK ≠ 0) ∧
    (∀ wr_ok v, v % 2 ^ 32 &&& FLASH_CR_LOCK ≠ 0 →
      ∃ s1, stm32l4x5_flash_mmio_write s wr_ok FLASH_CR v = some s1 ∧
        s1.flash_cr &&& FLASH_CR_LOCK ≠ 0) := by
  refine ⟨?_, ?_, ?_, ?_⟩
  · show (0xC0000000 : Nat) &&& FLASH_CR_LOCK ≠ 0
    decide
  · intro wr_ok a v
    rw [flash_write_cr]
    exact h
  · intro wr_ok addr v hcr hkey
    by_cases hsr : addr = FLASH_SR
    · subst hsr
      refine ⟨_, mmio_write_SR s wr_ok v, ?_⟩
      unfold write_FLASH_SR
      split
      · show (s.flash_cr &&& not32 FLASH_CR_STRT) &&& FLASH_CR_LOCK ≠ 0
        rw [FLASH_CR_LOCK_eq, and_two_pow_ne_zero] at h ⊢
        rw [FLASH_CR_STRT_eq, testBit_clear, h]
        decide
      · exact h
    · by_cases hk : addr = FLASH_KEYR
      · subst hk
        refine ⟨_, mmio_write_KEYR s wr_ok v, ?_⟩
        unfold write_FLASH_KEYR
        split
        · exact h
        · split
          · rename_i h2
            exact absurd ⟨rfl, h2.1, h2.2⟩ hkey
          · exact h
      · refine ⟨s, ?_, h⟩
        unfold stm32l4x5_flash_mmio_write
        simp only [hsr, hcr, hk, if_false]
  · intro wr_ok v hv
    refine ⟨{ s with flash_cr := s.flash_cr ||| FLASH_CR_LOCK, unlock_stage := 0 }, ?_, ?_⟩
    · rw [mmio_write_CR]
      unfold write_FLASH_CR
      rw [if_pos hv]
    · show (s.flash_cr ||| FLASH_CR_LOCK) &&& FLASH_CR_LOCK ≠ 0
      rw [FLASH_CR_LOCK_eq, and_two_pow_ne_zero, testBit_set]
      simp

/-! ## Sequential-write tracking (C11) -/

/-- C11 as stated fails: from the unlocked state with `CR.PG` set and an empty
tracker, a first word is accepted at linear word address 0; the next write goes
to offset 20, linear word address 5 and not 1, and is accepted as well:
`SR.PROGERR` stays clear and the cell takes the value.  Likewise, after a first
word at offset `BANK_SIZE + 8` (word 2 of bank 1, linear word address
`0x20002`) the write to offset 12 (linear word address 3) is accepted. -/
theorem write_after_first_word_at_zero_is_accepted :
    unlocked_pg_state.flash_cr &&& FLASH_CR_LOCK = 0 ∧
    unlocked_pg_state.flash_cr &&& FLASH_CR_PG ≠ 0 ∧
    write_rejected unlocked_pg_state 0 = false ∧
    (stm32l4x5_flash_write unlocked_pg_state true 0 0xDEADBEEF).2.content 0 0 = 0xDEADBEEF ∧
    (stm32l4x5_flash_write (stm32l4x5_flash_write unlocked_pg_state true 0 0xDEADBEEF).2
      true 20 0x12345678).2.flash_sr &&& FLASH_SR_PROGERR = 0 ∧
    (stm32l4x5_flash_write (stm32l4x5_flash_write unlocked_pg_state true 0 0xDEADBEEF).2
      true 20 0x12345678).2.content 0 5 = 0x12345678 ∧
    (stm32l4x5_flash_write unlocked_pg_state true (BANK_SIZE + 8) 0xDEADBEEF).2.content 1 2
      = 0xDEADBEEF ∧
    (stm32l4x5_flash_write
      (stm32l4x5_flash_write unlocked_pg_state true (BANK_SIZE + 8) 0xDEADBEEF).2
      true 12 0x12345678).2.flash_sr &&& FLASH_SR_PROGERR = 0 := by
  decide

/-- C11, amended: the tracker holds a word index within the bank, and the values
0 and 1 do not arm it.  From a state with the tracker empty, after a first word
accepted at an offset `a0 < 2 * BANK_SIZE` whose word index within its bank,
`(a0 mod BANK_SIZE) / 4`, is neither 0 nor 1, a program write to any offset
`a < 2 * BANK_SIZE` whose word index within its bank is not that index plus one
is rejected: `SR.PROGERR` set, `SR.BSY` cleared, bank content and drive
unchanged. -/
theorem sequential_write_enforced (s : STM32L4X5FlashState) (wr0 wr1 : Bool)
    (a0 v0 a v : Nat) (ha0 : a0 < 2 * BANK_SIZE) (ha : a < 2 * BANK_SIZE)
    (hprev : s.prev_write_addr = 0) (hacc : write_rejected s a0 = false)
    (h0 : a0 % BANK_SIZE / 4 ≠ 0) (h1 : a0 % BANK_SIZE / 4 ≠ 1)
    (hseq : a % BANK_SIZE / 4 ≠ a0 % BANK_SIZE / 4 + 1) :
    (stm32l4x5_flash_write s wr0 a0 v0).2.prev_write_addr = a0 % BANK_SIZE / 4 ∧
    (stm32l4x5_flash_write (stm32l4x5_flash_write s wr0 a0 v0).2 wr1 a v).2.flash_sr
      &&& FLASH_SR_PROGERR ≠ 0 ∧
    (stm32l4x5_flash_write (stm32l4x5_flash_write s wr0 a0 v0).2 wr1 a v).2.flash_sr
      &&& FLASH_SR_BSY = 0 ∧
    (stm32l4x5_flash_write (stm32l4x5_flash_write s wr0 a0 v0).2 wr1 a v).2.content
      = (stm32l4x5_flash_write s wr0 a0 v0).2.content ∧
    (stm32l4x5_flash_write (stm32l4x5_flash_write s wr0 a0 v0).2 wr1 a v).2.blk
      = (stm32l4x5_flash_write s wr0 a0 v0).2.blk := by
  have hea0 := effective_addr_eq a0 ha0
  have hea := effective_addr_eq a ha
  have hfirst := flash_write_accepted_first s wr0 a0 v0 hacc ⟨hprev, by rw [hea0]; exact h1⟩
  have hp : (stm32l4x5_flash_write s wr0 a0 v0).2.prev_write_addr = a0 % BANK_SIZE / 4 := by
    rw [hfirst.1, hea0]
  have hlt : a0 % BANK_SIZE / 4 < 2 ^ 17 := by
    rw [BANK_SIZE_eq]
    omega
  have hrej : write_rejected (stm32l4x5_flash_write s wr0 a0 v0).2 a = true := by
    unfold write_rejected
    rw [decide_eq_true_iff, hp, hea]
    refine Or.inr (Or.inr (Or.inr (Or.inl ⟨by omega, ?_⟩)))
    rw [Nat.mod_eq_of_lt (by omega)]
    exact fun h => hseq h.symm
  rw [flash_write_rejected _ wr1 a v hrej]
  exact ⟨hp, rejected_sr_progerr _, rejected_sr_bsy _, rfl, rfl⟩

theorem sequential_write_enforced_witness :
    (stm32l4x5_flash_write unlocked_pg_state true 8 0xDEADBEEF).2.prev_write_addr
      = 8 % BANK_SIZE / 4 ∧
    (stm32l4x5_flash_write (stm32l4x5_flash_write unlocked_pg_state true 8 0xDEADBEEF).2
      true 20 0x12345678).2.flash_sr &&& FLASH_SR_PROGERR ≠ 0 ∧
    (stm32l4x5_flash_write (stm32l4x5_flash_write unlocked_pg_state true 8 0xDEADBEEF).2
      true 20 0x12345678).2.flash_sr &&& FLASH_SR_BSY = 0 ∧
    (stm32l4x5_flash_write (stm32l4x5_flash_write unlocked_pg_state true 8 0xDEADBEEF).2
      true 20 0x12345678).2.content
      = (stm32l4x5_flash_write unlocked_pg_state true 8 0xDEADBEEF).2.content ∧
    (stm32l4x5_flash_write (stm32l4x5_flash_write unlocked_pg_state true 8 0xDEADBEEF).2
      true 20 0x12345678).2.blk
      = (stm32l4x5_flash_write unlocked_pg_state true 8 0xDEADBEEF).2.blk :=
  sequential_write_enforced unlocked_pg_state true true 8 0xDEADBEEF 20 0x12345678
    (by decide) (by decide) rfl (by decide) (by decide) (by decide) (by decide)

/-! ## Page erase through `CR` -/

theorem FLASH_CR_PER_eq : FLASH_CR_PER = 2 ^ 1 := by decide

theorem FLASH_CR_MER1_eq : FLASH_CR_MER1 = 2 ^ 2 := by decide

theorem FLASH_CR_BKER_eq : FLASH_CR_BKER = 2 ^ 11 := by decide

theorem FLASH_CR_MER2_eq : FLASH_CR_MER2 = 2 ^ 15 := by decide

/-- The page index decoded from bits 10:3 of the written value. -/
theorem page_field_eq (v : Nat) : (v >>> 3) &&& 0xFF = v / 8 % 256 := by
  rw [Nat.shiftRight_eq_div_pow]
  exact Nat.and_pow_two_sub_one_eq_mod (v / 2 ^ 3) 8

/-- The bank index decoded from `BKER`, bit 11 of the written value. -/
theorem bank_field_eq (v : Nat) :
    (if v &&& FLASH_CR_BKER > 0 then 1 else 0) = v / 2048 % 2 := by
  rw [FLASH_CR_BKER_eq, Nat.and_two_pow]
  have h := @Nat.testBit_to_div_mod 11 v
  cases hb : v.testBit 11
  · rw [hb] at h
    have h2 := of_decide_eq_false h.symm
    simp only [Bool.toNat_false, Nat.zero_mul, gt_iff_lt, Nat.lt_irrefl, if_false]
    omega
  · rw [hb] at h
    have h2 := of_decide_eq_true h.symm
    simp only [Bool.toNat_true, Nat.one_mul]
    rw [if_pos (by norm_num)]
    omega

/-- Bank content after the page-erase block: the 512 words of the selected
page of the selected bank are erased, every other word is as before. -/
theorem page_erase_content (s : STM32L4X5FlashState) (wr_ok : Bool) (v : Nat)
    (hv : v < 2 ^ 32) (c i : Nat) :
    (page_erase s wr_ok v).content c i =
      if c = v / 2048 % 2 ∧ 512 * (v / 8 % 256) ≤ i ∧ i < 512 * (v / 8 % 256) + 512
      then 0xFFFFFFFF else s.content c i := by
  unfold page_erase memset_words
  simp only [Nat.mod_eq_of_lt hv, page_field_eq, bank_field_eq, Nat.shiftLeft_eq]
  have hp : PAGE_SIZE / 4 = 512 := by decide
  rw [hp]
  by_cases hc : c = v / 2048 % 2
  · subst hc
    by_cases hi : v / 8 % 256 * 2 ^ 9 ≤ i ∧ i < v / 8 % 256 * 2 ^ 9 + 512
    · rw [if_pos rfl, if_pos hi, if_pos ⟨rfl, by omega, by omega⟩]
    · rw [if_pos rfl, if_neg hi, if_neg (by omega)]
  · rw [if_neg hc, if_neg (fun h => hc h.1)]

/-- A `CR` write that requests a page erase and nothing else (`LOCK`, `PG`,
`MER1`, `MER2` clear, `STRT` and `PER` set) returns, with the page-erase block
applied, `SR.EOP` or-ed into `SR`, and `CR` holding the written value. -/
theorem mmio_write_CR_page_erase (s : STM32L4X5FlashState) (wr_ok : Bool) (v : Nat)
    (hv : v < 2 ^ 32) (hlock : v &&& FLASH_CR_LOCK = 0) (hpg : v &&& FLASH_CR_PG = 0)
    (hm1 : v &&& FLASH_CR_MER1 = 0) (hm2 : v &&& FLASH_CR_MER2 = 0)
    (hstrt : v &&& FLASH_CR_STRT ≠ 0) (hper : v &&& FLASH_CR_PER ≠ 0) :
    ∃ s1, stm32l4x5_flash_mmio_write s wr_ok FLASH_CR v = some s1 ∧
      s1.content = (page_erase s wr_ok v).content ∧
      s1.blk = (page_erase s wr_ok v).blk ∧
      s1.flash_sr = s.flash_sr ||| FLASH_SR_EOP ∧
      s1.flash_cr = v &&& not32 FLASH_CR_LOCK ∧
      s1.prev_write_addr = s.prev_write_addr ∧ s1.unlock_stage = s.unlock_stage ∧
      s1.swapped_banks = s.swapped_banks := by
  have hdead : ¬ (v &&& not32 FLASH_CR_LOCK &&& FLASH_CR_LOCK ≠ 0) := by
    rw [FLASH_CR_LOCK_eq, and_two_pow_ne_zero, testBit_clear]
    simp
  refine ⟨{ page_erase { s with flash_cr := v &&& not32 FLASH_CR_LOCK } wr_ok v with
      flash_sr := (page_erase { s with flash_cr := v &&& not32 FLASH_CR_LOCK } wr_ok v).flash_sr
        ||| FLASH_SR_EOP }, ?_, ?_⟩
  · rw [mmio_write_CR]
    unfold write_FLASH_CR
    simp only [Nat.mod_eq_of_lt hv]
    rw [if_neg (not_not.mpr hlock), if_pos hstrt, if_neg hdead, if_neg (not_not.mpr hpg),
      if_pos hper, if_neg (not_not.mpr hm1), if_neg (not_not.mpr hm2)]
  · exact ⟨rfl, rfl, rfl, rfl, rfl, rfl, rfl⟩

/-! ## Erase (C12 to C18) -/

/-- C12: for every state, page `p` and bank `b`, a `CR` write of a 32-bit value
with `LOCK`, `PG`, `MER1` and `MER2` clear, `STRT` and `PER` set, bits 10:3
equal to `p` and `BKER` equal to `b` returns with words `512 * p` to
`512 * p + 511` of bank `b` equal to `0xFFFFFFFF`, every other word of both
banks unchanged, `SR.EOP` set and every other bit of `SR`, `SR.BSY` among them,
unchanged.  The swap flag plays no part. -/
theorem page_erase_bank_effect (s : STM32L4X5FlashState) (wr_ok : Bool) (v p b : Nat)
    (hv : v < 2 ^ 32) (hlock : v &&& FLASH_CR_LOCK = 0) (hpg : v &&& FLASH_CR_PG = 0)
    (hm1 : v &&& FLASH_CR_MER1 = 0) (hm2 : v &&& FLASH_CR_MER2 = 0)
    (hstrt : v &&& FLASH_CR_STRT ≠ 0) (hper : v &&& FLASH_CR_PER ≠ 0)
    (hp : v / 8 % 256 = p) (hb : v / 2048 % 2 = b) :
    p ≤ 255 ∧ b ≤ 1 ∧
    ∃ s1, stm32l4x5_flash_mmio_write s wr_ok FLASH_CR v = some s1 ∧
      (∀ i, 512 * p ≤ i → i ≤ 512 * p + 511 → s1.content b i = 0xFFFFFFFF) ∧
      (∀ c i, ¬ (c = b ∧ 512 * p ≤ i ∧ i ≤ 512 * p + 511) → s1.content c i = s.content c i) ∧
      s1.flash_sr &&& FLASH_SR_EOP ≠ 0 ∧
      s1.flash_sr &&& FLASH_SR_BSY = s.flash_sr &&& FLASH_SR_BSY ∧
      (∀ i, i ≠ 0 → s1.flash_sr.testBit i = s.flash_sr.testBit i) := by
  refine ⟨by omega, by omega, ?_⟩
  obtain ⟨s1, hw, hc, -, hsr, -⟩ :=
    mmio_write_CR_page_erase s wr_ok v hv hlock hpg hm1 hm2 hstrt hper
  have hbit : ∀ i, i ≠ 0 → s1.flash_sr.testBit i = s.flash_sr.testBit i := by
    intro i hi
    rw [hsr, FLASH_SR_EOP_eq, testBit_set]
    simp [Ne.symm hi]
  refine ⟨s1, hw, ?_, ?_, ?_, ?_, hbit⟩
  · intro i h1 h2
    rw [hc, page_erase_content s wr_ok v hv, hp, hb, if_pos ⟨rfl, h1, by omega⟩]
  · intro c i hne
    rw [hc, page_erase_content s wr_ok v hv, hp, hb, if_neg (fun h => hne ⟨h.1, h.2.1, by omega⟩)]
  · rw [hsr, FLASH_SR_EOP_eq, and_two_pow_ne_zero, testBit_set]
    simp
  · rw [FLASH_SR_BSY_eq, Nat.and_two_pow, Nat.and_two_pow, hbit 16 (by decide)]

theorem page_erase_bank_effect_witness :
    3 ≤ 255 ∧ 0 ≤ 1 ∧
    ∃ s1, stm32l4x5_flash_mmio_write page3_programmed_state true FLASH_CR 0x1001A = some s1 ∧
      (∀ i, 512 * 3 ≤ i → i ≤ 512 * 3 + 511 → s1.content 0 i = 0xFFFFFFFF) ∧
      (∀ c i, ¬ (c = 0 ∧ 512 * 3 ≤ i ∧ i ≤ 512 * 3 + 511) →
        s1.content c i = page3_programmed_state.content c i) ∧
      s1.flash_sr &&& FLASH_SR_EOP ≠ 0 ∧
      s1.flash_sr &&& FLASH_SR_BSY = page3_programmed_state.flash_sr &&& FLASH_SR_BSY ∧
      (∀ i, i ≠ 0 → s1.flash_sr.testBit i = page3_programmed_state.flash_sr.testBit i) :=
  page_erase_bank_effect page3_programmed_state true 0x1001A 3 0 (by decide) (by decide)
    (by decide) (by decide) (by decide) (by decide) (by decide) (by decide) (by decide)

/-- C13, evaluated where the code departs from it: bank 0 holds `0x12345678` in
the first word of page 3, mirrored on the drive at offset 6144 (swap flag
clear, drive write succeeding).  The page-erase write for bank 0, page 3
(`STRT | PER | 3 << 3`) erases the word in the bank, but the drive write goes to
offset `3 << 10 = 3072`, so the drive bytes at 6144 to 6147 still hold the old
word instead of `0xFF`. -/
theorem page_erase_drive_write_misses_page :
    page3_programmed_state.swapped_banks = false ∧
    page3_programmed_state.content 0 1536 = 0x12345678 ∧
    (stm32l4x5_flash_mmio_write page3_programmed_state true FLASH_CR 0x1001A).map
      (fun s => (s.content 0 1536, s.blk 6144, s.blk 6145, s.blk 6146, s.blk 6147))
      = some (0xFFFFFFFF, 0x78, 0x56, 0x34, 0x12) := by
  decide

/-- C14, evaluated where the code departs from it: for every state, the `CR`
writes `STRT | MER1` and `STRT | MER2` reach a `memset` whose target is the
pointer slot `&s->content[b]` inside the device structure, not the bank; the
write has no defined result, and bank `b` is not what gets overwritten. -/
theorem mass_erase_has_no_defined_result (s : STM32L4X5FlashState) (wr_ok : Bool) :
    stm32l4x5_flash_mmio_write s wr_ok FLASH_CR 0x10004 = none ∧
    stm32l4x5_flash_mmio_write s wr_ok FLASH_CR 0x18000 = none := by
  constructor
  · rw [mmio_write_CR]
    unfold write_FLASH_CR
    simp only []
    rw [if_neg (by decide), if_pos (by decide), if_neg (by decide), if_neg (by decide),
      if_pos (by decide)]
  · rw [mmio_write_CR]
    unfold write_FLASH_CR
    simp only []
    rw [if_neg (by decide), if_pos (by decide), if_neg (by decide), if_neg (by decide),
      if_neg (by decide), if_pos (by decide)]

/-- A page erase that reaches no mass-erase block is idempotent on the banks:
for every state and every `CR` write of a 32-bit value with `LOCK`, `PG`, `MER1`
and `MER2` clear and `STRT` and `PER` set, both the first and the repeated write
return, the bank content after the second equals the bank content after the
first, `SR.EOP` is set after each, and when the words of the addressed page are
all `0xFFFFFFFF` beforehand the first write leaves all bank content unchanged. -/
theorem page_erase_idempotent (s : STM32L4X5FlashState) (ok1 ok2 : Bool) (v : Nat)
    (hv : v < 2 ^ 32) (hlock : v &&& FLASH_CR_LOCK = 0) (hpg : v &&& FLASH_CR_PG = 0)
    (hm1 : v &&& FLASH_CR_MER1 = 0) (hm2 : v &&& FLASH_CR_MER2 = 0)
    (hstrt : v &&& FLASH_CR_STRT ≠ 0) (hper : v &&& FLASH_CR_PER ≠ 0) :
    ∃ s1 s2, stm32l4x5_flash_mmio_write s ok1 FLASH_CR v = some s1 ∧
      stm32l4x5_flash_mmio_write s1 ok2 FLASH_CR v = some s2 ∧
      s2.content = s1.content ∧
      s1.flash_sr &&& FLASH_SR_EOP ≠ 0 ∧ s2.flash_sr &&& FLASH_SR_EOP ≠ 0 ∧
      ((∀ i, 512 * (v / 8 % 256) ≤ i → i ≤ 512 * (v / 8 % 256) + 511 →
          s.content (v / 2048 % 2) i = 0xFFFFFFFF) → s1.content = s.content) := by
  obtain ⟨s1, hw1, hc1, -, hsr1, -⟩ :=
    mmio_write_CR_page_erase s ok1 v hv hlock hpg hm1 hm2 hstrt hper
  obtain ⟨s2, hw2, hc2, -, hsr2, -⟩ :=
    mmio_write_CR_page_erase s1 ok2 v hv hlock hpg hm1 hm2 hstrt hper
  have heop : ∀ x : Nat, (x ||| FLASH_SR_EOP) &&& FLASH_SR_EOP ≠ 0 := by
    intro x
    rw [FLASH_SR_EOP_eq, and_two_pow_ne_zero, testBit_set]
    simp
  refine ⟨s1, s2, hw1, hw2, ?_, ?_, ?_, ?_⟩
  · funext c i
    rw [hc2, page_erase_content s1 ok2 v hv, hc1, page_erase_content s ok1 v hv]
    split <;> rfl
  · rw [hsr1]
    exact heop _
  · rw [hsr2]
    exact heop _
  · intro herased
    funext c i
    rw [hc1, page_erase_content s ok1 v hv]
    split
    · rename_i h
      rw [h.1]
      exact (herased i h.2.1 (by omega)).symm
    · rfl

/-- C15, evaluated where the code departs from it: the value `0x10006` has
`LOCK` and `PG` clear and `STRT` and `PER` set, so it is a page-erase `CR` write,
and it has `MER1` set as well.  From every state, whatever the drive does, the
write runs the page erase and then falls into the `MER1` block, whose `memset`
starts at the address of the pointer `content[0]` inside the device structure:
the first write has no defined result, and there is no state from which to
repeat it nor bank content to compare. -/
theorem page_erase_with_mer1_has_no_result :
    0x10006 &&& FLASH_CR_LOCK = 0 ∧ 0x10006 &&& FLASH_CR_PG = 0 ∧
    0x10006 &&& FLASH_CR_STRT ≠ 0 ∧ 0x10006 &&& FLASH_CR_PER ≠ 0 ∧
    0x10006 &&& FLASH_CR_MER1 ≠ 0 ∧
    ∀ (s : STM32L4X5FlashState) (wr_ok : Bool),
      stm32l4x5_flash_mmio_write s wr_ok FLASH_CR 0x10006 = none := by
  refine ⟨by decide, by decide, by decide, by decide, by decide, ?_⟩
  intro s wr_ok
  rw [mmio_write_CR]
  unfold write_FLASH_CR
  simp only []
  rw [if_neg (by decide), if_pos (by decide), if_neg (by decide), if_neg (by decide),
    if_pos (by decide)]

/-- The sample state with both banks programmed has its drive equal to its
bank content. -/
theorem two_banks_programmed_state_mirrored : mirrored two_banks_programmed_state := by
  intro b k hb hk
  rw [BANK_SIZE_eq] at hk ⊢
  have h4 : k % 4 < 4 := Nat.mod_lt _ (by decide)
  have hff : ∀ j, j < 4 → (0xFFFFFFFF >>> (8 * j)) % 256 = 0xFF := by decide
  by_cases hk4 : k < 4
  · interval_cases b <;> interval_cases k <;> decide
  · have hq : 0 + k / 4 ≠ 0 := by omega
    show two_banks_programmed_state.blk (b * 524288 + k)
      = ((if 0 + k / 4 = 0 then _ else 0xFFFFFFFF) >>> (8 * (k % 4))) % 256
    rw [if_neg hq, hff _ h4]
    unfold two_banks_programmed_state
    simp only []
    have hne : ∀ j : Nat, j < 4 ∨ (524288 ≤ j ∧ j < 524292) → b * 524288 + k ≠ j := by
      intro j hj
      interval_cases b <;> omega
    simp only [hne 0 (by omega), hne 1 (by omega), hne 2 (by omega), hne 3 (by omega),
      hne 524288 (by omega), hne 524289 (by omega), hne 524290 (by omega),
      hne 524291 (by omega), if_false]

/-- C16, evaluated where the code departs from it: the drive equals the bank
content beforehand and the drive write succeeds, yet after the page-erase `CR`
write for bank 1, page 0 (`STRT | PER | BKER`) it no longer does: the first
word of bank 1 is erased while the drive byte at `BANK_SIZE` keeps `0xBE`, and
the drive byte at offset 0 becomes `0xFF` while bank 0 keeps `0x12345678`. -/
theorem page_erase_breaks_mirror :
    mirrored two_banks_programmed_state ∧
    (stm32l4x5_flash_mmio_write two_banks_programmed_state true FLASH_CR 0x10802).map
      (fun s => (s.content 1 0, s.blk BANK_SIZE, s.content 0 0, s.blk 0))
      = some (0xFFFFFFFF, 0xBE, 0x12345678, 0xFF) ∧
    ∃ s1, stm32l4x5_flash_mmio_write two_banks_programmed_state true FLASH_CR 0x10802
        = some s1 ∧ ¬ mirrored s1 := by
  refine ⟨two_banks_programmed_state_mirrored, by decide, ?_⟩
  obtain ⟨s1, hw, hc, hblk, -⟩ :=
    mmio_write_CR_page_erase two_banks_programmed_state true 0x10802 (by decide) (by decide)
      (by decide) (by decide) (by decide) (by decide) (by decide)
  refine ⟨s1, hw, ?_⟩
  intro hm
  have h := hm 0 0 (by decide) (by decide)
  rw [hc, hblk] at h
  revert h
  decide

/-- C18 as stated fails: with the bank-swap flag set, the page-erase write that
selects bank 0, page 0 erases physical bank 0 and leaves physical bank 1 as it
was, where the claim has it erase physical bank 1 and leave bank 0 alone. -/
theorem page_erase_ignores_swap_flag :
    swapped_programmed_state.swapped_banks = true ∧
    (swapped_programmed_state.content 0 0, swapped_programmed_state.content 1 0)
      = (0x12345678, 0xCAFEBABE) ∧
    (stm32l4x5_flash_mmio_write swapped_programmed_state true FLASH_CR 0x10002).map
      (fun s => (s.content 0 0, s.content 1 0)) = some (0xFFFFFFFF, 0xCAFEBABE) := by
  decide

/-- C18, amended: the erase does not go through the boot-remap translation.
Whether the bank-swap flag is set or clear, a page-erase `CR` write (32-bit
value, `LOCK`, `PG`, `MER1`, `MER2` clear, `STRT` and `PER` set) that selects
bank `b` and page `p` erases page `p` of physical bank `b` in the bank content,
leaves physical bank `1 - b` unchanged and leaves the flag as it was. -/
theorem page_erase_selects_physical_bank (s : STM32L4X5FlashState) (swap wr_ok : Bool)
    (v p b : Nat)
    (hv : v < 2 ^ 32) (hlock : v &&& FLASH_CR_LOCK = 0) (hpg : v &&& FLASH_CR_PG = 0)
    (hm1 : v &&& FLASH_CR_MER1 = 0) (hm2 : v &&& FLASH_CR_MER2 = 0)
    (hstrt : v &&& FLASH_CR_STRT ≠ 0) (hper : v &&& FLASH_CR_PER ≠ 0)
    (hp : v / 8 % 256 = p) (hb : v / 2048 % 2 = b) :
    ∃ s1, stm32l4x5_flash_mmio_write { s with swapped_banks := swap } wr_ok FLASH_CR v
        = some s1 ∧
      (∀ i, 512 * p ≤ i → i ≤ 512 * p + 511 → s1.content b i = 0xFFFFFFFF) ∧
      (∀ i, s1.content (1 - b) i = s.content (1 - b) i) ∧
      s1.swapped_banks = swap := by
  obtain ⟨s1, hw, hc, -, -, -, -, -, hsw⟩ :=
    mmio_write_CR_page_erase { s with swapped_banks := swap } wr_ok v hv hlock hpg hm1 hm2
      hstrt hper
  refine ⟨s1, hw, ?_, ?_, hsw⟩
  · intro i h1 h2
    rw [hc, page_erase_content _ wr_ok v hv, hp, hb, if_pos ⟨rfl, h1, by omega⟩]
  · intro i
    rw [hc, page_erase_content _ wr_ok v hv, hb, if_neg (fun h => by omega)]

theorem page_erase_selects_physical_bank_witness :
    ∃ s1, stm32l4x5_flash_mmio_write
        { two_banks_programmed_state with swapped_banks := true } true FLASH_CR 0x10002
        = some s1 ∧
      (∀ i, 512 * 0 ≤ i → i ≤ 512 * 0 + 511 → s1.content 0 i = 0xFFFFFFFF) ∧
      (∀ i, s1.content (1 - 0) i = two_banks_programmed_state.content (1 - 0) i) ∧
      s1.swapped_banks = true :=
  page_erase_selects_physical_bank two_banks_programmed_state true true 0x10002 0 0
    (by decide) (by decide) (by decide) (by decide) (by decide) (by decide) (by decide)
    (by decide) (by decide)

/-! ## Boot remap and the read view (C17, C19, C20) -/

/-- The program path never writes the bank-swap flag. -/
theorem flash_write_swapped_banks (s : STM32L4X5FlashState) (wr_ok : Bool) (a v : Nat) :
    (stm32l4x5_flash_write s wr_ok a v).2.swapped_banks = s.swapped_banks := by
  cases h : write_rejected s a
  · unfold stm32l4x5_flash_write
    simp only [h, Bool.false_eq_true, if_false]
    by_cases h1 : s.prev_write_addr = 0 ∧ effective_addr a ≠ 1
    · rw [if_pos h1]
    · rw [if_neg h1]
  · rw [flash_write_rejected s wr_ok a v h]

/-- When the handler is handed an address `a < 2 * BANK_SIZE` as it is, the
bank it computes from the bank bit is the bank mapped at slot `a / BANK_SIZE`. -/
theorem banks_eq_write_bank (sw : Bool) (a : Nat) (h : a < 2 * BANK_SIZE) :
    banks sw (a / BANK_SIZE) = write_bank sw a := by
  rw [write_bank_eq sw a h]
  rw [BANK_SIZE_eq] at h ⊢
  unfold banks
  cases sw
  · rfl
  · simp only [if_true]
    split <;> omega

/-- The flash address space maps logical slot `L`, at offset `L * BANK_SIZE`,
to physical bank `1 - L` when the bank-swap flag is set and to bank `L`
otherwise; with the flag set, offset 0 reads the first word of physical bank 1;
and after an accepted store of a 32-bit `v` at an offset `a < BANK_SIZE` (the
first slot), a read of the flash address space at `a` returns `v`. -/
theorem flash_read_view (s : STM32L4X5FlashState) :
    (∀ L k, L < 2 → k < BANK_SIZE →
      flash_read s (L * BANK_SIZE + k)
        = s.content (if s.swapped_banks then 1 - L else L) (k / 4)) ∧
    (s.swapped_banks = true → flash_read s 0 = s.content 1 0) ∧
    (∀ wr_ok a v, v < 2 ^ 32 → a < BANK_SIZE → write_rejected s a = false →
      flash_read (flash_store s wr_ok a v).2 a = v) := by
  refine ⟨?_, ?_, ?_⟩
  · intro L k hL hk
    have ha : L * BANK_SIZE + k < 2 * BANK_SIZE := by
      rw [BANK_SIZE_eq] at hk ⊢
      omega
    have hq : (L * BANK_SIZE + k) / BANK_SIZE = L := by
      rw [BANK_SIZE_eq] at hk ⊢
      omega
    have hr : (L * BANK_SIZE + k) % BANK_SIZE / 4 = k / 4 := by
      rw [BANK_SIZE_eq] at hk ⊢
      omega
    unfold flash_read
    rw [banks_eq_write_bank _ _ ha, write_bank_eq _ _ ha, hq, hr]
  · intro hsw
    unfold flash_read banks
    rw [hsw]
    rfl
  · intro wr_ok a v hv ha hacc
    have ha2 : a < 2 * BANK_SIZE := by omega
    rw [flash_store_first_slot s wr_ok a v ha]
    unfold flash_read
    rw [flash_write_swapped_banks, banks_eq_write_bank _ _ ha2, ← effective_addr_eq a ha2,
      flash_write_accepted_cell s wr_ok a v hacc, Nat.mod_eq_of_lt hv]

/-- C19, evaluated where the code departs from it: the swap flag is clear, so
the second slot of the flash address space reads bank 1; the controller is
unlocked with `CR.PG` set and every cell erased.  The store of `0xDEADBEEF` at
offset `BANK_SIZE + 8` is accepted, but it reaches the handler as offset 8 of a
bank region and the handler, finding the bank bit clear, writes word 2 of
bank 0.  The read of the flash address space at `BANK_SIZE + 8` returns
`0xFFFFFFFF`; the value shows at offset 8 instead. -/
theorem store_in_second_slot_not_read_back :
    unlocked_pg_state.swapped_banks = false ∧
    banks unlocked_pg_state.swapped_banks ((BANK_SIZE + 8) / BANK_SIZE) = 1 ∧
    write_rejected unlocked_pg_state ((BANK_SIZE + 8) % BANK_SIZE) = false ∧
    (flash_store unlocked_pg_state true (BANK_SIZE + 8) 0xDEADBEEF).2.flash_sr
      &&& FLASH_SR_PROGERR = 0 ∧
    flash_read (flash_store unlocked_pg_state true (BANK_SIZE + 8) 0xDEADBEEF).2
      (BANK_SIZE + 8) = 0xFFFFFFFF ∧
    flash_read (flash_store unlocked_pg_state true (BANK_SIZE + 8) 0xDEADBEEF).2 8
      = 0xDEADBEEF ∧
    (flash_store unlocked_pg_state true (BANK_SIZE + 8) 0xDEADBEEF).2.content 1 2
      = 0xFFFFFFFF ∧
    (flash_store unlocked_pg_state true (BANK_SIZE + 8) 0xDEADBEEF).2.content 0 2
      = 0xDEADBEEF := by
  decide

/-- A register write has no defined result exactly when it is a `CR` write that
reaches a mass-erase block; every other register write returns a state with
the bank-swap flag it started with. -/
theorem mmio_write_swapped_banks (s : STM32L4X5FlashState) (wr_ok : Bool) (addr v : Nat) :
    (∃ s1, stm32l4x5_flash_mmio_write s wr_ok addr v = some s1 ∧
      s1.swapped_banks = s.swapped_banks) ∨
    (stm32l4x5_flash_mmio_write s wr_ok addr v = none ∧ addr = FLASH_CR ∧
      v % 2 ^ 32 &&& FLASH_CR_LOCK = 0 ∧ v % 2 ^ 32 &&& FLASH_CR_STRT ≠ 0 ∧
      v % 2 ^ 32 &&& FLASH_CR_PG = 0 ∧
      (v % 2 ^ 32 &&& FLASH_CR_MER1 ≠ 0 ∨ v % 2 ^ 32 &&& FLASH_CR_MER2 ≠ 0)) := by
  by_cases hsr : addr = FLASH_SR
  · subst hsr
    left
    refine ⟨_, mmio_write_SR s wr_ok v, ?_⟩
    unfold write_FLASH_SR
    split <;> rfl
  by_cases hk : addr = FLASH_KEYR
  · subst hk
    left
    refine ⟨_, mmio_write_KEYR s wr_ok v, ?_⟩
    unfold write_FLASH_KEYR
    split
    · rfl
    · split <;> rfl
  by_cases hcr : addr = FLASH_CR
  · subst hcr
    rw [mmio_write_CR]
    unfold write_FLASH_CR
    simp only []
    by_cases h1 : v % 2 ^ 32 &&& FLASH_CR_LOCK ≠ 0
    · left
      rw [if_pos h1]
      exact ⟨_, rfl, rfl⟩
    rw [if_neg h1]
    by_cases h2 : v % 2 ^ 32 &&& FLASH_CR_STRT ≠ 0
    swap
    · left
      rw [if_neg h2]
      exact ⟨_, rfl, rfl⟩
    rw [if_pos h2]
    by_cases h3 : v % 2 ^ 32 &&& not32 FLASH_CR_LOCK &&& FLASH_CR_LOCK ≠ 0
    · left
      rw [if_pos h3]
      exact ⟨_, rfl, rfl⟩
    rw [if_neg h3]
    by_cases h4 : v % 2 ^ 32 &&& FLASH_CR_PG ≠ 0
    · left
      rw [if_pos h4]
      exact ⟨_, rfl, rfl⟩
    rw [if_neg h4]
    by_cases h5 : v % 2 ^ 32 &&& FLASH_CR_MER1 ≠ 0
    · right
      rw [if_pos h5]
      refine ⟨?_, ?_, not_not.mp h1, h2, not_not.mp h4, Or.inl h5⟩ <;> trivial
    rw [if_neg h5]
    by_cases h6 : v % 2 ^ 32 &&& FLASH_CR_MER2 ≠ 0
    · right
      rw [if_pos h6]
      refine ⟨?_, ?_, not_not.mp h1, h2, not_not.mp h4, Or.inr h6⟩ <;> trivial
    rw [if_neg h6]
    left
    refine ⟨_, rfl, ?_⟩
    split <;> rfl
  · left
    refine ⟨s, ?_, rfl⟩
    unfold stm32l4x5_flash_mmio_write
    simp only [hsr, hcr, hk, if_false]

/-- C20, evaluated where the code departs from it: from a state with the
bank-swap flag clear, the `CR` write `STRT | MER1` runs
`memset(&s->content[0], 0xFF, BANK_SIZE)` over the device structure, whose
members after `content` include `swapped_banks`; the write returns no state
with the flag preserved. -/
theorem swap_flag_undefined_after_mass_erase :
    two_banks_programmed_state.swapped_banks = false ∧
    (stm32l4x5_flash_mmio_write two_banks_programmed_state true FLASH_CR 0x10004).map
      (fun s => s.swapped_banks) = none := by
  decide

/-! ## Reset, status write and register read (C21 to C24) -/

/-- C21 as stated fails: after a system reset a `CR` read returns `0xC0000000`,
not `0x80000000`; bit 30 is set next to `LOCK`. -/
theorem reset_cr_has_bit_30 :
    stm32l4x5_flash_mmio_read (stm32l4x5_flash_system_reset unlocked_pg_state) FLASH_CR
      = 0xC0000000 ∧
    stm32l4x5_flash_mmio_read (stm32l4x5_flash_system_reset unlocked_pg_state) FLASH_CR
      ≠ 0x80000000 ∧
    (stm32l4x5_flash_system_reset unlocked_pg_state).flash_cr.testBit 30 = true := by
  decide

/-- C21, amended: after a system reset from any state, `CR` has `LOCK` (bit 31)
and bit 30 set and every other bit clear; a `CR` read returns `0xC0000000`. -/
theorem reset_cr_value (s : STM32L4X5FlashState) :
    (stm32l4x5_flash_system_reset s).flash_cr &&& FLASH_CR_LOCK ≠ 0 ∧
    (stm32l4x5_flash_system_reset s).flash_cr = 2 ^ 31 + 2 ^ 30 ∧
    stm32l4x5_flash_mmio_read (stm32l4x5_flash_system_reset s) FLASH_CR = 0xC0000000 := by
  refine ⟨?_, rfl, rfl⟩
  show (0xC0000000 : Nat) &&& FLASH_CR_LOCK ≠ 0
  decide

/-- C22: after a system reset from any state the unlock stage is 0, `SR` is 0 and
the tracker is empty (0), while both banks, the drive and the bank-swap flag
are exactly as before. -/
theorem reset_frame (s : STM32L4X5FlashState) :
    (stm32l4x5_flash_system_reset s).unlock_stage = 0 ∧
    (stm32l4x5_flash_system_reset s).flash_sr = 0 ∧
    (stm32l4x5_flash_system_reset s).prev_write_addr = 0 ∧
    (stm32l4x5_flash_system_reset s).content = s.content ∧
    (stm32l4x5_flash_system_reset s).blk = s.blk ∧
    (stm32l4x5_flash_system_reset s).swapped_banks = s.swapped_banks :=
  ⟨rfl, rfl, rfl, rfl, rfl, rfl⟩

/-- Clearing bits twice is clearing them once. -/
theorem and_not32_idem (x m : Nat) : x &&& not32 m &&& not32 m = x &&& not32 m := by
  rw [Nat.and_assoc, Nat.and_self]

/-- C23: for every state and 32-bit `v`, an `SR` write of `v` returns with `SR`
equal to the old `SR` and-ed with the complement of `v` (bit by bit: a bit stays
set when it was set and `v` does not have it); when `v` has bit 16 (`BSY`) set,
`CR.STRT` is cleared and the other bits of `CR` keep their value, otherwise `CR`
is unchanged; the unlock stage, the tracker, both banks, the drive and the swap
flag are unchanged; and a second `SR` write of the same `v` returns the same
state. -/
theorem sr_write_one_to_clear (s : STM32L4X5FlashState) (ok1 ok2 : Bool) (v : Nat)
    (hv : v < 2 ^ 32) :
    ∃ s1, stm32l4x5_flash_mmio_write s ok1 FLASH_SR v = some s1 ∧
      s1.flash_sr = s.flash_sr &&& not32 v ∧
      (∀ i, i < 32 → s1.flash_sr.testBit i = (s.flash_sr.testBit i && !v.testBit i)) ∧
      (v &&& FLASH_SR_BSY ≠ 0 → s1.flash_cr &&& FLASH_CR_STRT = 0 ∧
        ∀ i, i < 32 → i ≠ 16 → s1.flash_cr.testBit i = s.flash_cr.testBit i) ∧
      (v &&& FLASH_SR_BSY = 0 → s1.flash_cr = s.flash_cr) ∧
      s1.unlock_stage = s.unlock_stage ∧ s1.prev_write_addr = s.prev_write_addr ∧
      s1.content = s.content ∧ s1.blk = s.blk ∧ s1.swapped_banks = s.swapped_banks ∧
      stm32l4x5_flash_mmio_write s1 ok2 FLASH_SR v = some s1 := by
  have hbits : ∀ i, i < 32 →
      (s.flash_sr &&& not32 v).testBit i = (s.flash_sr.testBit i && !v.testBit i) := by
    intro i hi
    rw [Nat.testBit_and, testBit_not32]
    simp [hi]
  have hw : stm32l4x5_flash_mmio_write s ok1 FLASH_SR v = some (write_FLASH_SR s v) := by
    rw [mmio_write_SR, Nat.mod_eq_of_lt hv]
  have hw2 : stm32l4x5_flash_mmio_write (write_FLASH_SR s v) ok2 FLASH_SR v
      = some (write_FLASH_SR (write_FLASH_SR s v) v) := by
    rw [mmio_write_SR, Nat.mod_eq_of_lt hv]
  by_cases hb : v &&& FLASH_SR_BSY ≠ 0
  · have h1 : write_FLASH_SR s v = { s with flash_sr := s.flash_sr &&& not32 v
                                            flash_cr := s.flash_cr &&& not32 FLASH_CR_STRT } := by
      unfold write_FLASH_SR
      rw [if_pos hb]
    have h2 : write_FLASH_SR (write_FLASH_SR s v) v = write_FLASH_SR s v := by
      rw [h1]
      unfold write_FLASH_SR
      rw [if_pos hb]
      simp only [and_not32_idem]
    rw [h2] at hw2
    rw [h1] at hw hw2
    refine ⟨_, hw, rfl, hbits, ?_, ?_, rfl, rfl, rfl, rfl, rfl, hw2⟩
    · intro _
      constructor
      · show s.flash_cr &&& not32 FLASH_CR_STRT &&& FLASH_CR_STRT = 0
        rw [FLASH_CR_STRT_eq, and_two_pow_eq_zero, testBit_clear]
        simp
      · intro i hi hne
        show (s.flash_cr &&& not32 FLASH_CR_STRT).testBit i = s.flash_cr.testBit i
        rw [FLASH_CR_STRT_eq, testBit_clear]
        simp [hi, Ne.symm hne]
    · intro h0
      exact absurd h0 hb
  · have h1 : write_FLASH_SR s v = { s with flash_sr := s.flash_sr &&& not32 v } := by
      unfold write_FLASH_SR
      rw [if_neg hb]
    have h2 : write_FLASH_SR (write_FLASH_SR s v) v = write_FLASH_SR s v := by
      rw [h1]
      unfold write_FLASH_SR
      rw [if_neg hb]
      simp only [and_not32_idem]
    rw [h2] at hw2
    rw [h1] at hw hw2
    refine ⟨_, hw, rfl, hbits, ?_, ?_, rfl, rfl, rfl, rfl, rfl, hw2⟩
    · intro h3
      exact absurd h3 hb
    · intro _
      rfl

theorem sr_write_one_to_clear_witness :
    ∃ s1, stm32l4x5_flash_mmio_write awaiting_pair_state true FLASH_SR 0x10001 = some s1 ∧
      s1.flash_sr = awaiting_pair_state.flash_sr &&& not32 0x10001 ∧
      (∀ i, i < 32 → s1.flash_sr.testBit i
        = (awaiting_pair_state.flash_sr.testBit i && !(0x10001 : Nat).testBit i)) ∧
      (0x10001 &&& FLASH_SR_BSY ≠ 0 → s1.flash_cr &&& FLASH_CR_STRT = 0 ∧
        ∀ i, i < 32 → i ≠ 16 → s1.flash_cr.testBit i = awaiting_pair_state.flash_cr.testBit i) ∧
      (0x10001 &&& FLASH_SR_BSY = 0 → s1.flash_cr = awaiting_pair_state.flash_cr) ∧
      s1.unlock_stage = awaiting_pair_state.unlock_stage ∧
      s1.prev_write_addr = awaiting_pair_state.prev_write_addr ∧
      s1.content = awaiting_pair_state.content ∧ s1.blk = awaiting_pair_state.blk ∧
      s1.swapped_banks = awaiting_pair_state.swapped_banks ∧
      stm32l4x5_flash_mmio_write s1 true FLASH_SR 0x10001 = some s1 :=
  sr_write_one_to_clear awaiting_pair_state true true 0x10001 (by decide)

/-- C24: for every state, a register read at offset `0x10` returns `SR`, a read
at offset `0x14` returns `CR`, a read at any other offset, `ACR` at `0x00`
included, returns 0, and the state after a read is the state before it. -/
theorem mmio_read_values (s : STM32L4X5FlashState) :
    stm32l4x5_flash_mmio_read s 0x10 = s.flash_sr ∧
    stm32l4x5_flash_mmio_read s 0x14 = s.flash_cr ∧
    stm32l4x5_flash_mmio_read s FLASH_ACR = 0 ∧
    (∀ addr, addr ≠ 0x10 → addr ≠ 0x14 → stm32l4x5_flash_mmio_read s addr = 0) ∧
    (∀ addr, access s (Access.mmio_read addr) = some s) := by
  refine ⟨rfl, ?_, rfl, ?_, fun _ => rfl⟩
  · unfold stm32l4x5_flash_mmio_read
    rw [if_neg (by decide)]
    rfl
  · intro addr h1 h2
    have h1a : addr ≠ FLASH_SR := h1
    have h2a : addr ≠ FLASH_CR := h2
    unfold stm32l4x5_flash_mmio_read
    rw [if_neg h1a, if_neg h2a]

theorem mmio_read_values_witness :
    stm32l4x5_flash_mmio_read awaiting_pair_state 0x10 = awaiting_pair_state.flash_sr ∧
    stm32l4x5_flash_mmio_read awaiting_pair_state 0x14 = awaiting_pair_state.flash_cr ∧
    stm32l4x5_flash_mmio_read awaiting_pair_state FLASH_ACR = 0 ∧
    stm32l4x5_flash_mmio_read awaiting_pair_state 0x8 = 0 ∧
    access awaiting_pair_state (Access.mmio_read 0x8) = some awaiting_pair_state :=
  ⟨(mmio_read_values awaiting_pair_state).1, (mmio_read_values awaiting_pair_state).2.1,
    (mmio_read_values awaiting_pair_state).2.2.1,
    (mmio_read_values awaiting_pair_state).2.2.2.1 0x8 (by decide) (by decide),
    (mmio_read_values awaiting_pair_state).2.2.2.2 0x8⟩

/-! ## Attach outcomes (C25) -/

/-- C25 as stated fails: a writable drive of `2 * BANK_SIZE + 512` bytes, which is
not exactly `2 * BANK_SIZE` long, attaches without error. -/
theorem oversized_drive_attaches :
    oversized_drive.length ≠ 2 * BANK_SIZE ∧
    ∃ s, stm32l4x5_flash_realize unrealized_state (some oversized_drive) = Except.ok s :=
  ⟨by decide, ⟨_, rfl⟩⟩

/-- C25, amended: attach fails with an error, and returns no usable state, when
the drive is absent, when it cannot be written, and when it is shorter than
`2 * BANK_SIZE` bytes (a bank cannot be loaded); there is no other check of the
size.  When attach succeeds the drive is writable and at least `2 * BANK_SIZE`
bytes long, and every word of both banks is the word read from the drive at
`bank * BANK_SIZE + 4 * index`; and attach does succeed for every writable
drive of at least that length whose permission request is granted. -/
theorem realize_outcomes (s : STM32L4X5FlashState) :
    stm32l4x5_flash_realize s none = Except.error RealizeError.blk_not_set ∧
    (∀ d, d.supports_write_perm = false →
      stm32l4x5_flash_realize s (some d) = Except.error RealizeError.read_only_drive) ∧
    (∀ d, d.length < 2 * BANK_SIZE → ∃ e, stm32l4x5_flash_realize s (some d) = Except.error e) ∧
    (∀ d s1, stm32l4x5_flash_realize s (some d) = Except.ok s1 →
      d.supports_write_perm = true ∧ 2 * BANK_SIZE ≤ d.length ∧ s1.blk = d.data ∧
      ∀ i k, s1.content i k = word_at d.data (i * BANK_SIZE + 4 * k)) ∧
    (∀ d, d.supports_write_perm = true → d.set_perm_ok = true → 2 * BANK_SIZE ≤ d.length →
      ∃ s1, stm32l4x5_flash_realize s (some d) = Except.ok s1) := by
  have hp0 : ∀ d : BlockBackend, blk_pread d (0 * BANK_SIZE) BANK_SIZE = false →
      d.length < 2 * BANK_SIZE := by
    intro d h
    unfold blk_pread at h
    rw [decide_eq_false_iff_not, BANK_SIZE_eq] at h
    rw [BANK_SIZE_eq]
    omega
  have hp1 : ∀ d : BlockBackend, blk_pread d (1 * BANK_SIZE) BANK_SIZE = false ↔
      d.length < 2 * BANK_SIZE := by
    intro d
    unfold blk_pread
    rw [decide_eq_false_iff_not, BANK_SIZE_eq]
    omega
  refine ⟨rfl, ?_, ?_, ?_, ?_⟩
  · intro d hro
    unfold stm32l4x5_flash_realize
    simp only []
    rw [if_pos hro]
  · intro d hlen
    unfold stm32l4x5_flash_realize
    simp only []
    split
    · exact ⟨_, rfl⟩
    · split
      · exact ⟨_, rfl⟩
      · split
        · exact ⟨_, rfl⟩
        · rw [if_pos ((hp1 d).2 hlen)]
          exact ⟨_, rfl⟩
  · intro d s1 hok
    unfold stm32l4x5_flash_realize at hok
    simp only [] at hok
    split at hok
    · exact absurd hok (by simp)
    · split at hok
      · exact absurd hok (by simp)
      · split at hok
        · exact absurd hok (by simp)
        · split at hok
          · exact absurd hok (by simp)
          · rename_i hw _ _ h1
            have hs := (Except.ok.inj hok).symm
            refine ⟨by simpa using hw, ?_, ?_, ?_⟩
            · have := mt (hp1 d).2 h1
              omega
            · rw [hs]
            · intro i k
              rw [hs]
  · intro d hw hperm hlen
    unfold stm32l4x5_flash_realize
    simp only []
    have h0 : ¬ blk_pread d (0 * BANK_SIZE) BANK_SIZE = false := by
      intro h
      have := hp0 d h
      omega
    have h1 : ¬ blk_pread d (1 * BANK_SIZE) BANK_SIZE = false := by
      intro h
      have := (hp1 d).1 h
      omega
    rw [if_neg (by simp [hw]), if_neg (by simp [hperm]), if_neg h0, if_neg h1]
    exact ⟨_, rfl⟩

theorem realize_outcomes_witness :
    stm32l4x5_flash_realize unrealized_state none = Except.error RealizeError.blk_not_set ∧
    stm32l4x5_flash_realize unrealized_state (some read_only_drive)
      = Except.error RealizeError.read_only_drive ∧
    (∃ e, stm32l4x5_flash_realize unrealized_state (some short_drive) = Except.error e) ∧
    (∃ s1, stm32l4x5_flash_realize unrealized_state (some fw_in_bank2_drive) = Except.ok s1) :=
  ⟨(realize_outcomes unrealized_state).1,
    (realize_outcomes unrealized_state).2.1 read_only_drive rfl,
    (realize_outcomes unrealized_state).2.2.1 short_drive (by decide),
    (realize_outcomes unrealized_state).2.2.2.2 fw_in_bank2_drive rfl rfl (by decide)⟩

/-! ## Rejected program writes and the tracker (C26) -/

/-- C26, evaluated where the code departs from it: with the tracker holding word
2, the program write to offset 20 (word 5) is rejected, `SR.PROGERR` is set and
`SR.BSY` is cleared, but the tracker still holds 2; the following write to
offset 40, an erased aligned cell, with the controller unlocked and `CR.PG` set,
is rejected in turn and the cell stays erased. -/
theorem rejected_write_keeps_tracker :
    awaiting_pair_state.prev_write_addr = 2 ∧
    write_rejected awaiting_pair_state 20 = true ∧
    (stm32l4x5_flash_write awaiting_pair_state true 20 0x12345678).2.flash_sr
      &&& FLASH_SR_PROGERR ≠ 0 ∧
    (stm32l4x5_flash_write awaiting_pair_state true 20 0x12345678).2.flash_sr
      &&& FLASH_SR_BSY = 0 ∧
    (stm32l4x5_flash_write awaiting_pair_state true 20 0x12345678).2.prev_write_addr = 2 ∧
    (stm32l4x5_flash_write awaiting_pair_state true 20 0x12345678).2.flash_cr
      &&& FLASH_CR_LOCK = 0 ∧
    (stm32l4x5_flash_write awaiting_pair_state true 20 0x12345678).2.flash_cr
      &&& FLASH_CR_PG ≠ 0 ∧
    (stm32l4x5_flash_write awaiting_pair_state true 20 0x12345678).2.content 0 10
      = 0xFFFFFFFF ∧
    write_rejected (stm32l4x5_flash_write awaiting_pair_state true 20 0x12345678).2 40
      = true ∧
    (stm32l4x5_flash_write (stm32l4x5_flash_write awaiting_pair_state true 20 0x12345678).2
      true 40 0xCAFEBABE).2.content 0 10 = 0xFFFFFFFF := by
  decide

/-! ## Drive failures, the programming start, sticky flags and index bounds (C27 to C30) -/

/-- A 32-bit value without the `LOCK` bit is left as it is by the store into
`CR`, which masks `LOCK` out. -/
theorem and_not_lock_eq (v : Nat) (hv : v < 2 ^ 32) (hlock : v &&& FLASH_CR_LOCK = 0) :
    v &&& not32 FLASH_CR_LOCK = v := by
  rw [FLASH_CR_LOCK_eq] at hlock ⊢
  rw [and_two_pow_eq_zero] at hlock
  apply Nat.eq_of_testBit_eq
  intro i
  rw [testBit_clear]
  by_cases h31 : i = 31
  · subst h31
    rw [hlock]
    rfl
  · by_cases hi : i < 32
    · simp [hi, Ne.symm h31]
    · have hlt : v < 2 ^ i :=
        Nat.lt_of_lt_of_le hv (Nat.pow_le_pow_right (by decide) (by omega))
      rw [Nat.testBit_lt_two_pow hlt]
      rfl

/-- A status bit that is set stays set when bits are or-ed into `SR`. -/
theorem bit_kept_by_or (x m k : Nat) (h : x &&& 2 ^ k ≠ 0) : (x ||| m) &&& 2 ^ k ≠ 0 := by
  rw [and_two_pow_ne_zero] at h ⊢
  rw [Nat.testBit_or, h]
  rfl

/-- A status bit other than `BSY` that is set stays set when `BSY` is cleared
and bits are or-ed in. -/
theorem bit_kept_by_clear_bsy (x m k : Nat) (hk : k < 32) (hne : k ≠ 16)
    (h : x &&& 2 ^ k ≠ 0) : (x &&& not32 FLASH_SR_BSY ||| m) &&& 2 ^ k ≠ 0 := by
  rw [and_two_pow_ne_zero] at h ⊢
  rw [Nat.testBit_or, FLASH_SR_BSY_eq, testBit_clear, h]
  simp [hk, Ne.symm hne]

/-- The status word after a program write keeps every set bit below bit 32
other than `BSY`. -/
theorem flash_write_sr_bit_kept (s : STM32L4X5FlashState) (wr_ok : Bool) (a v k : Nat)
    (hk : k < 32) (hne : k ≠ 16) (h : s.flash_sr &&& 2 ^ k ≠ 0) :
    (stm32l4x5_flash_write s wr_ok a v).2.flash_sr &&& 2 ^ k ≠ 0 := by
  cases hr : write_rejected s a
  · by_cases h1 : s.prev_write_addr = 0 ∧ effective_addr a ≠ 1
    · rw [(flash_write_accepted_first s wr_ok a v hr h1).2]
      exact h
    · rw [(flash_write_accepted_second s wr_ok a v hr h1).2]
      exact bit_kept_by_clear_bsy _ _ k hk hne h
  · rw [flash_write_rejected s wr_ok a v hr]
    exact bit_kept_by_clear_bsy _ _ k hk hne h

/-- Bank content, `CR`, `SR` and the tracker after a program write do not depend
on the outcome of the drive write. -/
theorem flash_write_drive_independent (s : STM32L4X5FlashState) (a v : Nat) :
    (stm32l4x5_flash_write s true a v).2.content = (stm32l4x5_flash_write s false a v).2.content ∧
    (stm32l4x5_flash_write s true a v).2.flash_cr = (stm32l4x5_flash_write s false a v).2.flash_cr ∧
    (stm32l4x5_flash_write s true a v).2.flash_sr = (stm32l4x5_flash_write s false a v).2.flash_sr ∧
    (stm32l4x5_flash_write s true a v).2.prev_write_addr
      = (stm32l4x5_flash_write s false a v).2.prev_write_addr := by
  cases hr : write_rejected s a
  · refine ⟨?_, ?_, ?_, ?_⟩
    · funext b i
      rw [flash_write_accepted_content s true a v hr, flash_write_accepted_content s false a v hr]
    · rw [flash_write_cr, flash_write_cr]
    · by_cases h1 : s.prev_write_addr = 0 ∧ effective_addr a ≠ 1
      · rw [(flash_write_accepted_first s true a v hr h1).2,
          (flash_write_accepted_first s false a v hr h1).2]
      · rw [(flash_write_accepted_second s true a v hr h1).2,
          (flash_write_accepted_second s false a v hr h1).2]
    · by_cases h1 : s.prev_write_addr = 0 ∧ effective_addr a ≠ 1
      · rw [(flash_write_accepted_first s true a v hr h1).1,
          (flash_write_accepted_first s false a v hr h1).1]
      · rw [(flash_write_accepted_second s true a v hr h1).1,
          (flash_write_accepted_second s false a v hr h1).1]
  · rw [flash_write_rejected s true a v hr, flash_write_rejected s false a v hr]
    exact ⟨rfl, rfl, rfl, rfl⟩

/-- The program path returns `MEMTX_OK` on every path. -/
theorem flash_write_result (s : STM32L4X5FlashState) (wr_ok : Bool) (a v : Nat) :
    (stm32l4x5_flash_write s wr_ok a v).1 = MemTxResult.MEMTX_OK := by
  unfold stm32l4x5_flash_write
  simp only []
  split <;> rfl

/-- The outcome of a `CR` write, seen through bank content, `CR`, `SR` and the
tracker, does not depend on the outcome of the drive write. -/
theorem write_FLASH_CR_drive_independent (s : STM32L4X5FlashState) (v : Nat) :
    (write_FLASH_CR s true v).map
        (fun t => (t.content, t.flash_cr, t.flash_sr, t.prev_write_addr))
      = (write_FLASH_CR s false v).map
        (fun t => (t.content, t.flash_cr, t.flash_sr, t.prev_write_addr)) := by
  unfold write_FLASH_CR
  simp only []
  by_cases h1 : v % 2 ^ 32 &&& FLASH_CR_LOCK ≠ 0
  · rw [if_pos h1, if_pos h1]
  rw [if_neg h1, if_neg h1]
  by_cases h2 : v % 2 ^ 32 &&& FLASH_CR_STRT ≠ 0
  swap
  · rw [if_neg h2, if_neg h2]
  rw [if_pos h2, if_pos h2]
  by_cases h3 : v % 2 ^ 32 &&& not32 FLASH_CR_LOCK &&& FLASH_CR_LOCK ≠ 0
  · rw [if_pos h3, if_pos h3]
  rw [if_neg h3, if_neg h3]
  by_cases h4 : v % 2 ^ 32 &&& FLASH_CR_PG ≠ 0
  · rw [if_pos h4, if_pos h4]
  rw [if_neg h4, if_neg h4]
  by_cases h5 : v % 2 ^ 32 &&& FLASH_CR_MER1 ≠ 0
  · rw [if_pos h5, if_pos h5]
  rw [if_neg h5, if_neg h5]
  by_cases h6 : v % 2 ^ 32 &&& FLASH_CR_MER2 ≠ 0
  · rw [if_pos h6, if_pos h6]
  rw [if_neg h6, if_neg h6]
  by_cases h7 : v % 2 ^ 32 &&& FLASH_CR_PER ≠ 0
  · rw [if_pos h7, if_pos h7]
    rfl
  · rw [if_neg h7, if_neg h7]


/-- Outside the mass-erase blocks a failing drive write is not visible in the
controller.  For every state and every program write, accepted or not, the
result is `MEMTX_OK` and bank content, `CR`, `SR` and the tracker are the same
with a failing as with a succeeding drive write; a register write that returns
a state with one drive outcome returns one with the other, equal in bank
content, `CR`, `SR` and tracker; and a page-erase `CR` write (32-bit value,
`LOCK`, `PG`, `MER1`, `MER2` clear, `STRT` and `PER` set) returns in both cases,
with the same bank content, `CR`, `SR` and tracker. -/
theorem drive_failure_invisible (s : STM32L4X5FlashState) :
    (∀ a v,
      (stm32l4x5_flash_write s true a v).1 = MemTxResult.MEMTX_OK ∧
      (stm32l4x5_flash_write s false a v).1 = MemTxResult.MEMTX_OK ∧
      (stm32l4x5_flash_write s true a v).2.content
        = (stm32l4x5_flash_write s false a v).2.content ∧
      (stm32l4x5_flash_write s true a v).2.flash_cr
        = (stm32l4x5_flash_write s false a v).2.flash_cr ∧
      (stm32l4x5_flash_write s true a v).2.flash_sr
        = (stm32l4x5_flash_write s false a v).2.flash_sr ∧
      (stm32l4x5_flash_write s true a v).2.prev_write_addr
        = (stm32l4x5_flash_write s false a v).2.prev_write_addr) ∧
    (∀ addr v,
      (stm32l4x5_flash_mmio_write s true addr v).map
          (fun t => (t.content, t.flash_cr, t.flash_sr, t.prev_write_addr))
        = (stm32l4x5_flash_mmio_write s false addr v).map
          (fun t => (t.content, t.flash_cr, t.flash_sr, t.prev_write_addr))) ∧
    (∀ v, v < 2 ^ 32 → v &&& FLASH_CR_LOCK = 0 → v &&& FLASH_CR_PG = 0 →
      v &&& FLASH_CR_MER1 = 0 → v &&& FLASH_CR_MER2 = 0 →
      v &&& FLASH_CR_STRT ≠ 0 → v &&& FLASH_CR_PER ≠ 0 →
      ∃ s1 s2, stm32l4x5_flash_mmio_write s true FLASH_CR v = some s1 ∧
        stm32l4x5_flash_mmio_write s false FLASH_CR v = some s2 ∧
        s1.content = s2.content ∧ s1.flash_cr = s2.flash_cr ∧
        s1.flash_sr = s2.flash_sr ∧ s1.prev_write_addr = s2.prev_write_addr) := by
  refine ⟨?_, ?_, ?_⟩
  · intro a v
    obtain ⟨h1, h2, h3, h4⟩ := flash_write_drive_independent s a v
    exact ⟨flash_write_result s true a v, flash_write_result s false a v, h1, h2, h3, h4⟩
  · intro addr v
    by_cases hsr : addr = FLASH_SR
    · subst hsr
      rw [mmio_write_SR, mmio_write_SR]
    by_cases hk : addr = FLASH_KEYR
    · subst hk
      rw [mmio_write_KEYR, mmio_write_KEYR]
    by_cases hcr : addr = FLASH_CR
    · subst hcr
      rw [mmio_write_CR, mmio_write_CR]
      exact write_FLASH_CR_drive_independent s v
    · unfold stm32l4x5_flash_mmio_write
      simp only [hsr, hcr, hk, if_false]
  · intro v hv hlock hpg hm1 hm2 hstrt hper
    obtain ⟨s1, hw1, hc1, -, hsr1, hcr1, hp1, -⟩ :=
      mmio_write_CR_page_erase s true v hv hlock hpg hm1 hm2 hstrt hper
    obtain ⟨s2, hw2, hc2, -, hsr2, hcr2, hp2, -⟩ :=
      mmio_write_CR_page_erase s false v hv hlock hpg hm1 hm2 hstrt hper
    refine ⟨s1, s2, hw1, hw2, ?_, ?_, ?_, ?_⟩
    · rw [hc1, hc2]
      rfl
    · rw [hcr1, hcr2]
    · rw [hsr1, hsr2]
    · rw [hp1, hp2]

/-- C27, evaluated where the code departs from it: the value `0x18000`
(`STRT | MER2`, `LOCK` and `PG` clear) dispatches the mass erase of bank 2.  On
a state whose bank 0 is programmed, the `CR` write has no defined result with a
succeeding drive write and none with a failing one: the `memset` at
`&s->content[1]` runs over the device structure before `blk_pwrite` is called,
so neither outcome yields bank content, `CR`, `SR` or a tracker to compare. -/
theorem mass_erase_leaves_nothing_to_compare :
    0x18000 &&& FLASH_CR_LOCK = 0 ∧ 0x18000 &&& FLASH_CR_PG = 0 ∧
    0x18000 &&& FLASH_CR_STRT ≠ 0 ∧ 0x18000 &&& FLASH_CR_MER2 ≠ 0 ∧
    stm32l4x5_flash_mmio_write page3_programmed_state true FLASH_CR 0x18000 = none ∧
    stm32l4x5_flash_mmio_write page3_programmed_state false FLASH_CR 0x18000 = none := by
  refine ⟨by decide, by decide, by decide, by decide, ?_, ?_⟩
  · rw [mmio_write_CR]
    unfold write_FLASH_CR
    simp only []
    rw [if_neg (by decide), if_pos (by decide), if_neg (by decide), if_neg (by decide),
      if_neg (by decide), if_pos (by decide)]
  · rw [mmio_write_CR]
    unfold write_FLASH_CR
    simp only []
    rw [if_neg (by decide), if_pos (by decide), if_neg (by decide), if_neg (by decide),
      if_neg (by decide), if_pos (by decide)]

/-- C28: for every state and every 32-bit value with `LOCK` clear and both `STRT`
and `PG` set, the `CR` write returns with `CR` equal to the value and `SR.BSY`
or-ed into `SR`, so `SR.EOP` and every other bit of `SR` are as before; whatever
`PER`, `MER1` and `MER2` say, no erase runs: both banks and the drive are
unchanged, as are the tracker, the unlock stage and the swap flag. -/
theorem cr_write_start_program (s : STM32L4X5FlashState) (wr_ok : Bool) (v : Nat)
    (hv : v < 2 ^ 32) (hlock : v &&& FLASH_CR_LOCK = 0)
    (hstrt : v &&& FLASH_CR_STRT ≠ 0) (hpg : v &&& FLASH_CR_PG ≠ 0) :
    ∃ s1, stm32l4x5_flash_mmio_write s wr_ok FLASH_CR v = some s1 ∧
      s1.flash_cr = v ∧ s1.flash_sr = s.flash_sr ||| FLASH_SR_BSY ∧
      s1.flash_sr &&& FLASH_SR_BSY ≠ 0 ∧
      s1.flash_sr &&& FLASH_SR_EOP = s.flash_sr &&& FLASH_SR_EOP ∧
      (∀ i, i ≠ 16 → s1.flash_sr.testBit i = s.flash_sr.testBit i) ∧
      s1.content = s.content ∧ s1.blk = s.blk ∧
      s1.prev_write_addr = s.prev_write_addr ∧ s1.unlock_stage = s.unlock_stage ∧
      s1.swapped_banks = s.swapped_banks := by
  have hdead : ¬ (v &&& not32 FLASH_CR_LOCK &&& FLASH_CR_LOCK ≠ 0) := by
    rw [FLASH_CR_LOCK_eq, and_two_pow_ne_zero, testBit_clear]
    simp
  have hbit : ∀ i, i ≠ 16 →
      (s.flash_sr ||| FLASH_SR_BSY).testBit i = s.flash_sr.testBit i := by
    intro i hi
    rw [FLASH_SR_BSY_eq, testBit_set]
    simp [Ne.symm hi]
  refine ⟨{ s with flash_cr := v, flash_sr := s.flash_sr ||| FLASH_SR_BSY },
    ?_, rfl, rfl, ?_, ?_, hbit, rfl, rfl, rfl, rfl, rfl⟩
  · rw [mmio_write_CR]
    unfold write_FLASH_CR
    simp only [Nat.mod_eq_of_lt hv]
    rw [if_neg (not_not.mpr hlock), if_pos hstrt, if_neg hdead, if_pos hpg,
      and_not_lock_eq v hv hlock]
  · show (s.flash_sr ||| FLASH_SR_BSY) &&& FLASH_SR_BSY ≠ 0
    rw [FLASH_SR_BSY_eq, and_two_pow_ne_zero, testBit_set]
    simp
  · show (s.flash_sr ||| FLASH_SR_BSY) &&& FLASH_SR_EOP = s.flash_sr &&& FLASH_SR_EOP
    rw [FLASH_SR_EOP_eq, Nat.and_two_pow, Nat.and_two_pow, hbit 0 (by decide)]

theorem cr_write_start_program_witness :
    ∃ s1, stm32l4x5_flash_mmio_write two_banks_programmed_state true FLASH_CR 0x18007
        = some s1 ∧
      s1.flash_cr = 0x18007 ∧
      s1.flash_sr = two_banks_programmed_state.flash_sr ||| FLASH_SR_BSY ∧
      s1.flash_sr &&& FLASH_SR_BSY ≠ 0 ∧
      s1.flash_sr &&& FLASH_SR_EOP = two_banks_programmed_state.flash_sr &&& FLASH_SR_EOP ∧
      (∀ i, i ≠ 16 → s1.flash_sr.testBit i = two_banks_programmed_state.flash_sr.testBit i) ∧
      s1.content = two_banks_programmed_state.content ∧
      s1.blk = two_banks_programmed_state.blk ∧
      s1.prev_write_addr = two_banks_programmed_state.prev_write_addr ∧
      s1.unlock_stage = two_banks_programmed_state.unlock_stage ∧
      s1.swapped_banks = two_banks_programmed_state.swapped_banks :=
  cr_write_start_program two_banks_programmed_state true 0x18007 (by decide) (by decide)
    (by decide) (by decide)

/-- A `CR` write either returns a state in which each of `SR.EOP` and
`SR.PROGERR` that was set is still set, or it reaches a mass-erase block and
has no defined result. -/
theorem write_FLASH_CR_sticky (s : STM32L4X5FlashState) (wr_ok : Bool) (v : Nat) :
    (∃ s1, write_FLASH_CR s wr_ok v = some s1 ∧
      (s.flash_sr &&& FLASH_SR_EOP ≠ 0 → s1.flash_sr &&& FLASH_SR_EOP ≠ 0) ∧
      (s.flash_sr &&& FLASH_SR_PROGERR ≠ 0 → s1.flash_sr &&& FLASH_SR_PROGERR ≠ 0)) ∨
    (write_FLASH_CR s wr_ok v = none ∧
      v % 2 ^ 32 &&& FLASH_CR_LOCK = 0 ∧ v % 2 ^ 32 &&& FLASH_CR_STRT ≠ 0 ∧
      v % 2 ^ 32 &&& FLASH_CR_PG = 0 ∧
      (v % 2 ^ 32 &&& FLASH_CR_MER1 ≠ 0 ∨ v % 2 ^ 32 &&& FLASH_CR_MER2 ≠ 0)) := by
  have hdead : ¬ (v % 2 ^ 32 &&& not32 FLASH_CR_LOCK &&& FLASH_CR_LOCK ≠ 0) := by
    rw [FLASH_CR_LOCK_eq, and_two_pow_ne_zero, testBit_clear]
    simp
  have hor : ∀ m : Nat,
      (s.flash_sr &&& FLASH_SR_EOP ≠ 0 → (s.flash_sr ||| m) &&& FLASH_SR_EOP ≠ 0) ∧
      (s.flash_sr &&& FLASH_SR_PROGERR ≠ 0 → (s.flash_sr ||| m) &&& FLASH_SR_PROGERR ≠ 0) := by
    intro m
    rw [FLASH_SR_EOP_eq, FLASH_SR_PROGERR_eq]
    exact ⟨bit_kept_by_or _ m 0, bit_kept_by_or _ m 3⟩
  unfold write_FLASH_CR
  simp only []
  by_cases h1 : v % 2 ^ 32 &&& FLASH_CR_LOCK ≠ 0
  · left
    rw [if_pos h1]
    exact ⟨_, rfl, id, id⟩
  rw [if_neg h1]
  by_cases h2 : v % 2 ^ 32 &&& FLASH_CR_STRT ≠ 0
  swap
  · left
    rw [if_neg h2]
    exact ⟨_, rfl, id, id⟩
  rw [if_pos h2, if_neg hdead]
  by_cases h4 : v % 2 ^ 32 &&& FLASH_CR_PG ≠ 0
  · left
    rw [if_pos h4]
    exact ⟨_, rfl, (hor _).1, (hor _).2⟩
  rw [if_neg h4]
  by_cases h5 : v % 2 ^ 32 &&& FLASH_CR_MER1 ≠ 0
  · right
    rw [if_pos h5]
    exact ⟨rfl, not_not.mp h1, h2, not_not.mp h4, Or.inl h5⟩
  rw [if_neg h5]
  by_cases h6 : v % 2 ^ 32 &&& FLASH_CR_MER2 ≠ 0
  · right
    rw [if_pos h6]
    exact ⟨rfl, not_not.mp h1, h2, not_not.mp h4, Or.inr h6⟩
  rw [if_neg h6]
  left
  by_cases h7 : v % 2 ^ 32 &&& FLASH_CR_PER ≠ 0
  · rw [if_pos h7]
    exact ⟨_, rfl, (hor _).1, (hor _).2⟩
  · rw [if_neg h7]
    exact ⟨_, rfl, (hor _).1, (hor _).2⟩

/-- Outside the mass-erase blocks `SR.EOP` and `SR.PROGERR` are sticky.  From
every state: a `KEYR` write returns with `SR` unchanged; a `CR` write of any
value returns with each of the two flags that was set still set, unless it
reaches a mass-erase block, the one case that has no defined result; a
program-path write keeps each of the two flags that was set; and a register
read leaves the state as it is. -/
theorem eop_progerr_sticky (s : STM32L4X5FlashState) :
    (∀ wr_ok v, ∃ s1, stm32l4x5_flash_mmio_write s wr_ok FLASH_KEYR v = some s1 ∧
      s1.flash_sr = s.flash_sr) ∧
    (∀ wr_ok v,
      (∃ s1, stm32l4x5_flash_mmio_write s wr_ok FLASH_CR v = some s1 ∧
        (s.flash_sr &&& FLASH_SR_EOP ≠ 0 → s1.flash_sr &&& FLASH_SR_EOP ≠ 0) ∧
        (s.flash_sr &&& FLASH_SR_PROGERR ≠ 0 → s1.flash_sr &&& FLASH_SR_PROGERR ≠ 0)) ∨
      (stm32l4x5_flash_mmio_write s wr_ok FLASH_CR v = none ∧
        v % 2 ^ 32 &&& FLASH_CR_LOCK = 0 ∧ v % 2 ^ 32 &&& FLASH_CR_STRT ≠ 0 ∧
        v % 2 ^ 32 &&& FLASH_CR_PG = 0 ∧
        (v % 2 ^ 32 &&& FLASH_CR_MER1 ≠ 0 ∨ v % 2 ^ 32 &&& FLASH_CR_MER2 ≠ 0))) ∧
    (∀ wr_ok a v,
      (s.flash_sr &&& FLASH_SR_EOP ≠ 0 →
        (stm32l4x5_flash_write s wr_ok a v).2.flash_sr &&& FLASH_SR_EOP ≠ 0) ∧
      (s.flash_sr &&& FLASH_SR_PROGERR ≠ 0 →
        (stm32l4x5_flash_write s wr_ok a v).2.flash_sr &&& FLASH_SR_PROGERR ≠ 0)) ∧
    (∀ addr, access s (Access.mmio_read addr) = some s) := by
  refine ⟨?_, ?_, ?_, fun _ => rfl⟩
  · intro wr_ok v
    refine ⟨_, mmio_write_KEYR s wr_ok v, ?_⟩
    unfold write_FLASH_KEYR
    split
    · rfl
    · split <;> rfl
  · intro wr_ok v
    rw [mmio_write_CR]
    exact write_FLASH_CR_sticky s wr_ok v
  · intro wr_ok a v
    rw [FLASH_SR_EOP_eq, FLASH_SR_PROGERR_eq]
    exact ⟨flash_write_sr_bit_kept s wr_ok a v 0 (by decide) (by decide),
      flash_write_sr_bit_kept s wr_ok a v 3 (by decide) (by decide)⟩

/-- C29, evaluated where the code departs from it: `SR.EOP` and `SR.PROGERR`
are both set, and the `CR` write of `0x10004` (`STRT | MER1`), which is neither
an `SR` write nor a reset, falls into the `MER1` block.  Its `memset` starts at
the pointer `content[0]` inside the device structure and runs over the members
that follow, `flash_sr` among them: the write has no defined result, and no
state in which the two flags are still set. -/
theorem cr_write_mass_erase_drops_flags :
    flags_set_state.flash_sr &&& FLASH_SR_EOP ≠ 0 ∧
    flags_set_state.flash_sr &&& FLASH_SR_PROGERR ≠ 0 ∧
    0x10004 &&& FLASH_CR_STRT ≠ 0 ∧ 0x10004 &&& FLASH_CR_MER1 ≠ 0 ∧
    stm32l4x5_flash_mmio_write flags_set_state true FLASH_CR 0x10004 = none := by
  refine ⟨by decide, by decide, by decide, by decide, ?_⟩
  rw [mmio_write_CR]
  unfold write_FLASH_CR
  simp only []
  rw [if_neg (by decide), if_pos (by decide), if_neg (by decide), if_neg (by decide),
    if_pos (by decide)]

/-- C30: for every program-path write at an offset `a < 2 * BANK_SIZE` the bank
index is 0 or 1, the word index is below `BANK_SIZE / 4 = 131072`, and the four
bytes written to the drive end at or below `2 * BANK_SIZE`; for every value
written to `CR` the page index decoded by the page-erase block is at most 255,
its bank index is 0 or 1, the 512 erased words from `512 * page` and the 512
words read back from `256 * page` lie inside the bank, and the 2048 bytes
written to the drive end at or below `2 * BANK_SIZE`.  The two operations use
exactly these indices: the bank words and drive bytes they write are given in
terms of them. -/
theorem index_safety :
    (∀ sw a, a < 2 * BANK_SIZE →
      write_bank sw a ≤ 1 ∧ effective_addr a < BANK_SIZE / 4 ∧ BANK_SIZE / 4 = 131072 ∧
      write_drive_offset sw a + 4 ≤ 2 * BANK_SIZE) ∧
    (∀ v, erase_page v ≤ 255 ∧ erase_bank v ≤ 1 ∧
      erase_page v <<< 9 = 512 * erase_page v ∧
      (erase_page v <<< 9) + PAGE_SIZE / 4 ≤ BANK_SIZE / 4 ∧
      (erase_page v <<< 8) + PAGE_SIZE / 4 ≤ BANK_SIZE / 4 ∧
      ((erase_page v <<< erase_bank v) <<< 10) + PAGE_SIZE ≤ 2 * BANK_SIZE) ∧
    (∀ (s : STM32L4X5FlashState) wr_ok a v, write_rejected s a = false →
      (stm32l4x5_flash_write s wr_ok a v).2.blk
        = blk_pwrite wr_ok s.blk (write_drive_offset s.swapped_banks a) 4
            (fun j => ((v % 2 ^ 32) >>> (8 * j)) % 256) ∧
      ∀ b i, (stm32l4x5_flash_write s wr_ok a v).2.content b i
        = if b = write_bank s.swapped_banks a ∧ i = effective_addr a then v % 2 ^ 32
          else s.content b i) ∧
    (∀ (s : STM32L4X5FlashState) wr_ok v,
      (page_erase s wr_ok v).content = (fun b i =>
        if b = erase_bank v then
          memset_words (s.content (erase_bank v)) (erase_page v <<< 9) (PAGE_SIZE / 4) i
        else s.content b i) ∧
      (page_erase s wr_ok v).blk =
        blk_pwrite wr_ok s.blk ((erase_page v <<< erase_bank v) <<< 10) PAGE_SIZE
          (buf_byte ((page_erase s wr_ok v).content (erase_bank v)) (erase_page v <<< 8))) := by
  have hps : PAGE_SIZE = 2048 := by decide
  refine ⟨?_, ?_, ?_, ?_⟩
  · intro sw a ha
    have hea := effective_addr_eq a ha
    have hbk := write_bank_eq sw a ha
    rw [BANK_SIZE_eq] at ha hea hbk ⊢
    have hb : write_bank sw a ≤ 1 := by
      rw [hbk]
      split <;> omega
    have hi : effective_addr a < 2 ^ 17 := by
      rw [hea]
      omega
    refine ⟨hb, by omega, by decide, ?_⟩
    unfold write_drive_offset
    rw [drive_offset_eq _ _ (by omega) hi, BANK_SIZE_eq]
    interval_cases (write_bank sw a) <;> omega
  · intro v
    have hp : erase_page v = v % 2 ^ 32 / 8 % 256 := by
      unfold erase_page
      exact page_field_eq _
    have hb : erase_bank v = v / 2048 % 2 := by
      unfold erase_bank
      exact bank_field_eq v
    have hp255 : erase_page v ≤ 255 := by
      rw [hp]
      omega
    have hb1 : erase_bank v ≤ 1 := by
      rw [hb]
      omega
    rw [hps, BANK_SIZE_eq]
    simp only [Nat.shiftLeft_eq]
    refine ⟨hp255, hb1, by omega, by omega, by omega, ?_⟩
    interval_cases (erase_bank v) <;> omega
  · intro s wr_ok a v hacc
    exact ⟨flash_write_accepted_blk s wr_ok a v hacc,
      flash_write_accepted_content s wr_ok a v hacc⟩
  · intro s wr_ok v
    unfold page_erase erase_page erase_bank
    exact ⟨rfl, rfl⟩

theorem index_safety_witness :
    write_bank true (BANK_SIZE + 8) ≤ 1 ∧ effective_addr (BANK_SIZE + 8) < BANK_SIZE / 4 ∧
    BANK_SIZE / 4 = 131072 ∧ write_drive_offset true (BANK_SIZE + 8) + 4 ≤ 2 * BANK_SIZE :=
  index_safety.1 true (BANK_SIZE + 8) (by decide)

end Stm32l4x5Flash
